import Mathlib

/-!
# Verification of the Lcontext MCP server (`src/index.ts`)

This file gives a shallow embedding of the tool-dispatch and
report-formatting pipeline of the Lcontext MCP server and proves the
frozen claims about it.

Modelling conventions (documented once, used throughout):

* JS strings are Lean `String`s; template-literal pieces are transcribed
  verbatim, and interpolation of a possibly-`undefined` value renders the
  literal text `"undefined"`, as in JS.
* JS numbers are modelled as exact rationals (`ℚ`); integer arguments of
  handlers are modelled as `ℤ`.  IEEE-754 rounding of intermediate
  arithmetic is not modelled; `toFixed`/`Math.round` are modelled as exact
  decimal rounding of the rational value.
* Absent (`undefined`) fields of remote JSON payloads are modelled with
  `Option`.  Fields that the formatters access without any guard and that
  no claim exercises are typed as plain `String`/`ℚ`.
* `new Date(x).toLocaleDateString()` / `toLocaleTimeString()` are locale-
  and environment-dependent; they are modelled as injective tagging
  functions whose output no claim inspects.  `Number.toLocaleString()` is
  modelled without grouping separators.
* `String.prototype.trim` is modelled by `jsTrim` below (drop leading and
  trailing whitespace).
-/

namespace Lcontext

/-- JS whitespace as it occurs in the strings this program builds
(ASCII space, newline, tab, carriage return). -/
def jsWs (c : Char) : Bool :=
  c == ' ' || c == '\n' || c == '\t' || c == '\r'

/-- Drop leading and trailing whitespace from a character list. -/
def trimChars (l : List Char) : List Char :=
  ((l.dropWhile jsWs).reverse.dropWhile jsWs).reverse

/-- Model of JS `String.prototype.trim`. -/
def jsTrim (s : String) : String := ⟨trimChars s.data⟩

/-- `Contains s m`: the string `m` occurs somewhere inside `s`. -/
def Contains (s m : String) : Prop := m.data <:+: s.data

instance (s m : String) : Decidable (Contains s m) :=
  inferInstanceAs (Decidable (m.data <:+: s.data))

/-- `EndsWith s m`: the string `s` ends with `m`. -/
def EndsWith (s m : String) : Prop := m.data <:+ s.data

instance (s m : String) : Decidable (EndsWith s m) :=
  inferInstanceAs (Decidable (m.data <:+ s.data))

/-- JS template interpolation of a possibly-`undefined` string:
`undefined` renders as the literal text `"undefined"`. -/
def jsStr : Option String → String
  | none => "undefined"
  | some s => s

/-- JS `Number.prototype.toString` / template interpolation of a number.
Integral rationals render as their integer digits (as in JS); the
non-integral fallback is a modelling simplification (no claim interpolates
a non-integral number). -/
def jsNumToString (q : ℚ) : String :=
  if q.den = 1 then toString q.num else toString q

/-- Template interpolation of a possibly-`undefined` number. -/
def jsNumOpt : Option ℚ → String
  | none => "undefined"
  | some q => jsNumToString q

/-- JS `x || 0` for a possibly-`undefined` number (`0 || 0 = 0`). -/
def orZero : Option ℚ → ℚ
  | none => 0
  | some q => q

/-- JS truthiness of a possibly-`undefined` string. -/
def truthyS : Option String → Bool
  | none => false
  | some s => !(s == "")

/-- JS truthiness of a possibly-`undefined` number. -/
def truthyQ : Option ℚ → Bool
  | none => false
  | some q => !(q == 0)

/-- JS `x > 0` where `x` may be `undefined` (`undefined > 0` is false). -/
def gtZeroQ : Option ℚ → Bool
  | none => false
  | some q => decide (0 < q)

/-- JS `s || d` for strings (truthy-or with default). -/
def jsOrS (o : Option String) (d : String) : String :=
  match o with
  | some s => if s == "" then d else s
  | none => d

/-- JS `cond ? f(s) : ''` where `cond` is the truthiness of `s`. -/
def guardS (o : Option String) (f : String → String) : String :=
  match o with
  | some s => if s == "" then "" else f s
  | none => ""

/-- JS `cond ? f(q) : ''` where `cond` is the truthiness of the number `q`. -/
def guardQ (o : Option ℚ) (f : ℚ → String) : String :=
  match o with
  | some q => if q == 0 then "" else f q
  | none => ""

/-- JS `[a, b, c].filter(Boolean)`: keep only present, non-empty strings. -/
def filterTruthy (l : List (Option String)) : List String :=
  l.filterMap fun o =>
    match o with
    | some s => if s == "" then none else some s
    | none => none

/-- Left-pad a digit string with zeros to width `k`. -/
def padZeros (s : String) (k : Nat) : String :=
  if s.length ≥ k then s else ⟨List.replicate (k - s.length) '0'⟩ ++ s

/-- Model of JS `Number.prototype.toFixed(k)`: exact decimal rounding of
the rational value to `k` fractional digits. -/
def jsToFixed (k : Nat) (q : ℚ) : String :=
  let n : ℤ := round (q * ((10 : ℚ) ^ k))
  let sign := if n < 0 then "-" else ""
  let a := n.natAbs
  if k = 0 then sign ++ toString a
  else sign ++ toString (a / 10 ^ k) ++ "." ++ padZeros (toString (a % 10 ^ k)) k

/-- Model of JS `Math.round` (round half towards positive infinity). -/
def jsRound (q : ℚ) : ℤ := round q

/-- Model of `new Date(x).toLocaleDateString()`.  Date parsing and locale
rendering are environment-dependent; modelled as a tagging of the raw
input (no claim inspects the result).  `new Date(undefined)` is an
invalid date, whose locale rendering is `"Invalid Date"`. -/
def toLocaleDateString : Option String → String
  | none => "Invalid Date"
  | some s => "D(" ++ s ++ ")"

/-- Model of `new Date(x).toLocaleTimeString()` (see
`toLocaleDateString`). -/
def toLocaleTimeString : Option String → String
  | none => "Invalid Date"
  | some s => "T(" ++ s ++ ")"

/-- Model of `Number.prototype.toLocaleString()`: rendered without
grouping separators (no claim depends on grouping). -/
def numToLocaleString (q : ℚ) : String := jsNumToString q

/-- Model of JS `String.prototype.repeat` (negative counts, which throw a
`RangeError` in JS, are modelled as the empty string; no claim reaches
them). -/
def jsRepeat (s : String) (n : ℤ) : String :=
  ⟨(List.replicate n.toNat s.data).flatten⟩

/-- Stable insertion of `x` into a descending-by-`key` list: models one
step of JS stable `Array.prototype.sort` with comparator
`(a, b) => key(b) - key(a)`. -/
def insertDesc {α : Type} (key : α → ℚ) (x : α) : List α → List α
  | [] => [x]
  | y :: ys => if key x ≥ key y then x :: y :: ys else y :: insertDesc key x ys

/-- Stable descending sort by `key` (JS `sort((a, b) => key(b) - key(a))`,
which is stable per the ECMAScript spec). -/
def sortByDesc {α : Type} (key : α → ℚ) (l : List α) : List α :=
  l.foldr (insertDesc key) []

/-- `Map<string, number>.get` (insertion-ordered association list). -/
def mapGet (m : List (String × ℚ)) (k : String) : Option ℚ :=
  (m.find? fun p => p.1 == k).map Prod.snd

/-- `Map<string, number>.set`: update in place, else append (JS `Map`
preserves insertion order). -/
def mapSet (m : List (String × ℚ)) (k : String) (v : ℚ) : List (String × ℚ) :=
  match m with
  | [] => [(k, v)]
  | p :: rest => if p.1 == k then (k, v) :: rest else p :: mapSet rest k v

/-- Hexadecimal digit (uppercase, as produced by `encodeURIComponent`). -/
def hexDigit (n : Nat) : Char :=
  match n with
  | 0 => '0' | 1 => '1' | 2 => '2' | 3 => '3' | 4 => '4'
  | 5 => '5' | 6 => '6' | 7 => '7' | 8 => '8' | 9 => '9'
  | 10 => 'A' | 11 => 'B' | 12 => 'C' | 13 => 'D' | 14 => 'E' | 15 => 'F'
  | _ => '0'

/-- `%XX` percent-escape of one byte. -/
def byteHex (b : Nat) : String := ⟨['%', hexDigit (b / 16), hexDigit (b % 16)]⟩

/-- UTF-8 bytes of a character. -/
def utf8Bytes (c : Char) : List Nat :=
  let n := c.toNat
  if n < 0x80 then [n]
  else if n < 0x800 then [0xC0 + n / 64, 0x80 + n % 64]
  else if n < 0x10000 then [0xE0 + n / 4096, 0x80 + n / 64 % 64, 0x80 + n % 64]
  else [0xF0 + n / 262144, 0x80 + n / 4096 % 64, 0x80 + n / 64 % 64, 0x80 + n % 64]

/-- The characters `encodeURIComponent` leaves unescaped:
`A-Z a-z 0-9 - _ . ! ~ * ' ( )`. -/
def uriUnreserved (c : Char) : Bool :=
  c.isAlpha || c.isDigit || c == '-' || c == '_' || c == '.' || c == '!' ||
    c == '~' || c == '*' || c == Char.ofNat 39 || c == '(' || c == ')'

/-- Encoding of one character under `encodeURIComponent`. -/
def encChar (c : Char) : String :=
  if uriUnreserved c then String.singleton c
  else String.join ((utf8Bytes c).map byteHex)

/-- Model of JS `encodeURIComponent`. -/
def encodeURIComponent (s : String) : String :=
  String.join (s.data.map encChar)

/-- The characters `URLSearchParams` serialization leaves unescaped
(`application/x-www-form-urlencoded`): `A-Z a-z 0-9 * - . _`. -/
def formUnreserved (c : Char) : Bool :=
  c.isAlpha || c.isDigit || c == '*' || c == '-' || c == '.' || c == '_'

/-- Encoding of one character under `URLSearchParams.toString`. -/
def formEncChar (c : Char) : String :=
  if formUnreserved c then String.singleton c
  else if c == ' ' then "+"
  else String.join ((utf8Bytes c).map byteHex)

/-- `application/x-www-form-urlencoded` escape of a string. -/
def formEncode (s : String) : String := String.join (s.data.map formEncChar)

/-- Model of `URLSearchParams.toString()` for an append-ordered parameter
list. -/
def searchParamsToString (ps : List (String × String)) : String :=
  String.intercalate "&" (ps.map fun p => formEncode p.1 ++ "=" ++ formEncode p.2)

/-- `if (<string arg>) params.append(k, <string arg>)` — the
URLSearchParams append guarded by JS truthiness of an optional string. -/
def paramIfS (o : Option String) (k : String) : List (String × String) :=
  match o with
  | some s => if s == "" then [] else [(k, s)]
  | none => []

/-- `if (<number arg>) params.append(k, arg.toString())` for a defaulted
(always-present) integer argument: guarded by JS truthiness, so the value
`0` is NOT appended. -/
def paramIfZ (n : ℤ) (k : String) : List (String × String) :=
  if n == 0 then [] else [(k, toString n)]

/-- `if (<number arg>) params.append(k, arg.toString())` for an optional
integer argument: truthiness, so both `undefined` and `0` are omitted. -/
def paramIfOZ (o : Option ℤ) (k : String) : List (String × String) :=
  match o with
  | some n => if n == 0 then [] else [(k, toString n)]
  | none => []

/-- `if (arg !== undefined) params.append(k, arg.toString())`: a presence
check, so the value `0` IS appended. -/
def paramIfDefined (o : Option ℤ) (k : String) : List (String × String) :=
  match o with
  | some n => [(k, toString n)]
  | none => []

/-- The protocol envelope `{content: [{type: "text", text}]}` /
`{isError: true, content: [{type: "text", text}]}`, abstracted to its two
observable components. -/
structure ToolResult where
  isError : Bool
  text : String
deriving DecidableEq

/-- The outbound header bag built by `apiRequest` (src/index.ts:257-261):
the object literal
`{'X-API-Key': API_KEY, 'Content-Type': 'application/json',
...options.headers}`.  A JS object literal is modelled as an association
list in insertion order where a later entry with the same key overwrites
an earlier one, so the spread entries are appended and `objGet` reads the
LAST entry with the given key. -/
def apiRequestHeaders (apiKey : String) (optHeaders : List (String × String)) :
    List (String × String) :=
  [("X-API-Key", apiKey), ("Content-Type", "application/json")] ++ optHeaders

/-- Property lookup on the object-literal model: last entry wins. -/
def objGet (l : List (String × String)) (k : String) : Option String :=
  (l.reverse.find? fun p => p.1 == k).map Prod.snd

/-- The nine tool names of the dispatcher's `if` chain
(src/index.ts:1448-1731). -/
def knownToolNames : List String :=
  ["get_page_context", "list_pages", "get_element_context", "get_app_context",
   "get_visitors", "get_visitor_detail", "get_sessions", "get_session_detail",
   "get_user_flows"]

/-- Result of resolving a tool name: either one of the nine handlers runs,
or the fall-through `Unknown tool` envelope is returned
(src/index.ts:1733-1739). -/
inductive Routed where
  | tool (name : String)
  | unknown (res : ToolResult)
deriving DecidableEq

/-- The dispatcher's name-resolution `if` chain. -/
def routeTool (name : String) : Routed :=
  if name == "get_page_context" then .tool name
  else if name == "list_pages" then .tool name
  else if name == "get_element_context" then .tool name
  else if name == "get_app_context" then .tool name
  else if name == "get_visitors" then .tool name
  else if name == "get_visitor_detail" then .tool name
  else if name == "get_sessions" then .tool name
  else if name == "get_session_detail" then .tool name
  else if name == "get_user_flows" then .tool name
  else .unknown ⟨true, "Unknown tool: " ++ name⟩

/-- A remote HTTP response as seen by `apiRequest`. -/
structure HttpResponse where
  status : Nat
  body : String

/-- `Response.ok`: status in the range 200-299. -/
def responseOk (r : HttpResponse) : Bool := 200 ≤ r.status && r.status < 300

/-- `apiRequest`'s status handling (src/index.ts:268-273): a non-2xx
response throws `API request failed (<status>): <body>`; on success the
raw body text is returned (its JSON decoding happens next in the source
and no claim depends on it). -/
def apiRequestStatus (r : HttpResponse) : Except String String :=
  if !responseOk r then
    .error ("API request failed (" ++ toString r.status ++ "): " ++ r.body)
  else
    .ok r.body

/-- The dispatcher's outermost catch (src/index.ts:1741-1749): a thrown
`Error` with message `e` becomes `{isError: true, text: "Error: " ++ e}`. -/
def catchEnvelope (e : String) : ToolResult := ⟨true, "Error: " ++ e⟩

/-- Validated arguments of `get_element_context` (all three fields are
optional in the schema, src/index.ts:197-201). -/
structure ElementArgs where
  elementLabel : Option String
  elementId : Option String
  pagePath : Option String

/-- What a handler does next: reply immediately with an envelope, or
invoke the Remote Data Client on an endpoint. -/
inductive HandlerStep where
  | reply (res : ToolResult)
  | fetch (endpoint : String)
deriving DecidableEq

/-- The `get_element_context` handler up to its network call
(src/index.ts:1528-1549): if neither identifying field is truthy it
replies with an error envelope and never fetches; otherwise it fetches
`/api/mcp/elements?<query>`. -/
def elementContextHandler (a : ElementArgs) : HandlerStep :=
  if !truthyS a.elementLabel && !truthyS a.elementId then
    .reply ⟨true, "Either elementLabel or elementId is required"⟩
  else
    .fetch ("/api/mcp/elements?" ++ searchParamsToString
      (paramIfS a.elementLabel "elementLabel" ++ paramIfS a.elementId "elementId" ++
        paramIfS a.pagePath "pagePath"))

/-- Validated arguments of `get_page_context`; after schema validation
`periodType` is `"day"` or `"week"` with default `"day"`
(src/index.ts:185-190). -/
structure PageContextArgs where
  path : String
  startDate : Option String
  endDate : Option String
  periodType : String

/-- Query parameters of `get_page_context` (src/index.ts:1452-1455). -/
def pageContextParams (a : PageContextArgs) : List (String × String) :=
  paramIfS a.startDate "startDate" ++ paramIfS a.endDate "endDate" ++
    paramIfS (some a.periodType) "periodType"

/-- The `get_page_context` endpoint (src/index.ts:1457-1461): the
user-supplied path is passed through `encodeURIComponent` as a single
path segment. -/
def pageContextEndpoint (a : PageContextArgs) : String :=
  let queryString := searchParamsToString (pageContextParams a)
  "/api/mcp/pages/" ++ encodeURIComponent a.path ++
    (if queryString == "" then "" else "?" ++ queryString)

/-- Validated arguments of `get_visitors` (src/index.ts:208-219); `limit`
defaults to 20 and `offset` to 0. -/
structure VisitorsArgs where
  limit : ℤ
  offset : ℤ
  segmentId : Option ℤ
  search : Option String
  firstVisitAfter : Option String
  firstVisitBefore : Option String
  lastVisitAfter : Option String
  lastVisitBefore : Option String
  engagementTrend : Option String
  overallSentiment : Option String

/-- Query parameters of `get_visitors` (src/index.ts:1618-1628): all
guards are JS truthiness checks. -/
def visitorsParams (a : VisitorsArgs) : List (String × String) :=
  paramIfZ a.limit "limit" ++ paramIfZ a.offset "offset" ++
    paramIfOZ a.segmentId "segmentId" ++ paramIfS a.search "search" ++
    paramIfS a.firstVisitAfter "firstVisitAfter" ++
    paramIfS a.firstVisitBefore "firstVisitBefore" ++
    paramIfS a.lastVisitAfter "lastVisitAfter" ++
    paramIfS a.lastVisitBefore "lastVisitBefore" ++
    paramIfS a.engagementTrend "engagementTrend" ++
    paramIfS a.overallSentiment "overallSentiment"

/-- Validated arguments of `get_sessions` (src/index.ts:225-238); `limit`
defaults to 20 and `offset` to 0. -/
structure SessionsArgs where
  limit : ℤ
  offset : ℤ
  visitorId : Option String
  sentiment : Option String
  startDate : Option String
  endDate : Option String
  search : Option String
  minDuration : Option ℤ
  maxDuration : Option ℤ
  minEventsCount : Option ℤ
  maxEventsCount : Option ℤ
  pagePath : Option String

/-- Query parameters of `get_sessions` (src/index.ts:1665-1677): `limit`
and `offset` use truthiness guards, while the four duration/events-count
bounds use explicit `!== undefined` presence checks. -/
def sessionsParams (a : SessionsArgs) : List (String × String) :=
  paramIfZ a.limit "limit" ++ paramIfZ a.offset "offset" ++
    paramIfS a.visitorId "visitorId" ++ paramIfS a.sentiment "sentiment" ++
    paramIfS a.startDate "startDate" ++ paramIfS a.endDate "endDate" ++
    paramIfS a.search "search" ++
    paramIfDefined a.minDuration "minDuration" ++
    paramIfDefined a.maxDuration "maxDuration" ++
    paramIfDefined a.minEventsCount "minEventsCount" ++
    paramIfDefined a.maxEventsCount "maxEventsCount" ++
    paramIfS a.pagePath "pagePath"

/-- Untyped JSON values (for the session-detail event payloads, which the
source accesses dynamically). -/
inductive Jx where
  | null : Jx
  | bool (b : Bool) : Jx
  | num (q : ℚ) : Jx
  | str (s : String) : Jx
  | arr (xs : List Jx) : Jx
  | obj (fields : List (String × Jx)) : Jx

/-- Property access `v.k` on a JSON value (`undefined` on non-objects and
missing keys). -/
def jget : Jx → String → Option Jx
  | .obj fields, k => (fields.find? fun p => p.1 == k).map Prod.snd
  | _, _ => none

/-- JS truthiness of a possibly-`undefined` JSON value. -/
def jxTruthy : Option Jx → Bool
  | none => false
  | some .null => false
  | some (.bool b) => b
  | some (.num q) => !(q == 0)
  | some (.str s) => !(s == "")
  | some (.arr _) => true
  | some (.obj _) => true

/-- `v === "<s>"` for a possibly-`undefined` JSON value. -/
def jxIsStr (o : Option Jx) (s : String) : Bool :=
  match o with
  | some (.str t) => t == s
  | _ => false

mutual
/-- JS `String(v)` conversion of a JSON value (as used by template
interpolation). -/
def jxToString : Jx → String
  | .null => "null"
  | .bool b => if b then "true" else "false"
  | .num q => jsNumToString q
  | .str s => s
  | .arr xs => jxArrJoin xs
  | .obj _ => "[object Object]"
/-- `Array.prototype.toString`: elements joined with `,`, with `null`
rendering as the empty string. -/
def jxArrJoin : List Jx → String
  | [] => ""
  | [x] => jxElem x
  | x :: xs => jxElem x ++ "," ++ jxArrJoin xs
def jxElem : Jx → String
  | .null => ""
  | .bool b => if b then "true" else "false"
  | .num q => jsNumToString q
  | .str s => s
  | .arr xs => jxArrJoin xs
  | .obj _ => "[object Object]"
end

/-- Template interpolation of a possibly-`undefined` JSON value. -/
def jxInterp : Option Jx → String
  | none => "undefined"
  | some x => jxToString x

/-- JSON string escaping (the escapes relevant to the strings in scope). -/
def jsonEscapeChar (c : Char) : String :=
  if c == '"' then "\\\""
  else if c == '\\' then "\\\\"
  else if c == '\n' then "\\n"
  else if c == '\t' then "\\t"
  else if c == '\r' then "\\r"
  else ⟨[c]⟩

def jsonEscape (s : String) : String := String.join (s.data.map jsonEscapeChar)

mutual
/-- Model of `JSON.stringify` on the JSON-value model (object keys in
insertion order, no spacing, as in JS). -/
def jstringify : Jx → String
  | .null => "null"
  | .bool b => if b then "true" else "false"
  | .num q => jsNumToString q
  | .str s => "\"" ++ jsonEscape s ++ "\""
  | .arr xs => "[" ++ jstringifyList xs ++ "]"
  | .obj fs => "\x7b" ++ jstringifyFields fs ++ "\x7d"
def jstringifyList : List Jx → String
  | [] => ""
  | [x] => jstringify x
  | x :: xs => jstringify x ++ "," ++ jstringifyList xs
def jstringifyFields : List (String × Jx) → String
  | [] => ""
  | [(k, v)] => "\"" ++ jsonEscape k ++ "\":" ++ jstringify v
  | (k, v) :: fs =>
    "\"" ++ jsonEscape k ++ "\":" ++ jstringify v ++ "," ++ jstringifyFields fs
end

/-- Model of `new URL(u).pathname` for absolute URLs: the part after the
scheme-and-host prefix, up to `?` or `#`.  (An invalid URL throws in JS;
that case is outside every claim and the model is total.) -/
def urlPathname (u : String) : String :=
  let afterScheme :=
    match u.splitOn "://" with
    | _ :: rest@(_ :: _) => String.intercalate "://" rest
    | _ => u
  let afterHost := afterScheme.data.dropWhile fun c => !(c == '/')
  ⟨afterHost.takeWhile fun c => !(c == '?') && !(c == '#')⟩

/-- `a || b` where both sides are possibly-`undefined` strings and the
result is interpolated into a template. -/
def jsOrUndef (a b : Option String) : String :=
  match a with
  | some s => if s == "" then jsStr b else s
  | none => jsStr b

/-- First truthy string of a `||` chain, with a literal default. -/
def firstTruthy : List (Option String) → String → String
  | [], d => d
  | o :: rest, d =>
    match o with
    | some s => if s == "" then firstTruthy rest d else s
    | none => firstTruthy rest d

/-- `x ?? '?'` (nullish coalescing) for a number: `0` still renders. -/
def qqStr (o : Option ℚ) : String :=
  match o with
  | some q => jsNumToString q
  | none => "?"

/-- `o > n` where `o` may be `undefined` (`undefined > n` is false). -/
def optGtQ (o : Option ℚ) (n : ℚ) : Bool :=
  match o with
  | some t => decide (n < t)
  | none => false

/-- The `_dataRetention` sub-object `{days: number}`. -/
structure Retention where
  days : ℚ
deriving DecidableEq

/-- The trailing data-retention notice appended by every formatter except
`formatUserFlows` (src/index.ts:424-427 and analogues):
`\n---\n*Note: Data limited to last <days> days (free plan). Upgrade for
full history.*\n` when `_dataRetention` is truthy, nothing otherwise. -/
def retentionNotice : Option Retention → String
  | none => ""
  | some r => "\n---\n*Note: Data limited to last " ++ jsNumToString r.days
      ++ " days (free plan). Upgrade for full history.*\n"

/-- `formatUserFlows`'s shorter variant of the notice
(src/index.ts:1010-1012). -/
def flowsRetentionNotice : Option Retention → String
  | none => ""
  | some r => "\n---\n*Note: Data limited to last " ++ jsNumToString r.days
      ++ " days (free plan).*\n"

/-- One drop-off funnel step of a flow. -/
structure DropOffStep where
  page : Option String
  continueRate : Option ℚ
deriving DecidableEq

/-- One detected user-journey flow (all fields optional: the payload is
untyped in the source). -/
structure Flow where
  name : Option String
  category : Option String
  canonicalPath : Option (List String)
  sessionCount : Option ℚ
  visitorCount : Option ℚ
  avgDuration : Option ℚ
  avgPageCount : Option ℚ
  positiveSessions : Option ℚ
  negativeSessions : Option ℚ
  neutralSessions : Option ℚ
  description : Option String
  dropOffSteps : Option (List DropOffStep)
  variantCount : Option ℚ
deriving DecidableEq

/-- The `get_user_flows` response payload (`_dataRetention` is modelled as
the field `dataRetention`). -/
structure FlowsData where
  flows : Option (List Flow)
  total : Option ℚ
  periodStart : Option String
  periodEnd : Option String
  dataRetention : Option Retention

/-- `positiveRate` of a flow (src/index.ts:978-981): when the sentiment
total is positive but `positiveSessions` is absent, the JS division
yields `NaN`, which interpolates as the text `NaN`. -/
def positiveRateStr (f : Flow) : String :=
  let sentimentTotal := orZero f.positiveSessions + orZero f.negativeSessions
    + orZero f.neutralSessions
  if 0 < sentimentTotal then
    match f.positiveSessions with
    | none => "NaN"
    | some p => toString (jsRound ((p / sentimentTotal) * 100))
  else "0"

/-- One drop-off funnel line (src/index.ts:998-1002). -/
def renderDropOffStep (st : DropOffStep) : String :=
  let barLen := jsRound (orZero st.continueRate / 5)
  let bar := jsRepeat "█" barLen
  "  " ++ jsStr st.page ++ ": " ++ bar ++ " " ++ jsNumOpt st.continueRate ++ "%\n"

/-- The per-flow block of `formatUserFlows` (src/index.ts:977-1008); each
parenthesized chunk is one `output +=` statement of the source. -/
def renderFlow (f : Flow) : String :=
  ("\n### " ++ jsStr f.name)
  ++ guardS f.category (fun c => " [" ++ c ++ "]")
  ++ "\n"
  ++ ("**Path:** " ++ String.intercalate " → " (f.canonicalPath.getD []) ++ "\n")
  ++ ("- **Sessions:** " ++ jsNumOpt f.sessionCount ++ " (" ++ jsNumOpt f.visitorCount
      ++ " unique visitors)\n")
  ++ ("- **Avg Duration:** " ++ jsNumToString (orZero f.avgDuration)
      ++ "s | **Avg Pages:** " ++ jsNumToString (orZero f.avgPageCount) ++ "\n")
  ++ ("- **Sentiment:** " ++ positiveRateStr f ++ "% positive")
  ++ (if gtZeroQ f.negativeSessions then
        " | " ++ jsNumOpt f.negativeSessions ++ " negative sessions"
      else "")
  ++ "\n"
  ++ (jsStr f.description ++ "\n")
  ++ (match f.dropOffSteps with
      | some steps =>
        if steps.length > 0 then
          "**Drop-off funnel:**\n"
            ++ steps.foldl (fun acc st => acc ++ renderDropOffStep st) ""
        else ""
      | none => "")
  ++ (match f.variantCount with
      | some v => if !(v == 0) && decide (1 < v) then
            "*" ++ jsNumToString v ++ " path variants detected*\n"
          else ""
      | none => "")

/-- The header of `formatUserFlows` (src/index.ts:965-970). -/
def flowsHead (d : FlowsData) : String :=
  "## User Journey Patterns\n\n"
  ++ "Found " ++ jsNumOpt d.total ++ " detected journey patterns"
  ++ (if truthyS d.periodStart && truthyS d.periodEnd then
        " (" ++ toLocaleDateString d.periodStart ++ " to "
          ++ toLocaleDateString d.periodEnd ++ ")"
      else "")
  ++ ":\n"

/-- `formatUserFlows` (src/index.ts:962-1015).  Note the early return on
an absent/empty flow list, which skips the retention notice. -/
def formatUserFlows (d : FlowsData) : String :=
  match d.flows with
  | none => jsTrim (flowsHead d
      ++ "\nNo user flows detected yet. Flows are generated daily from session data.\n")
  | some [] => jsTrim (flowsHead d
      ++ "\nNo user flows detected yet. Flows are generated daily from session data.\n")
  | some flows => jsTrim (flowsHead d
      ++ flows.foldl (fun acc f => acc ++ renderFlow f) ""
      ++ flowsRetentionNotice d.dataRetention)

/-- A visitor record (used by `formatVisitors`, `formatVisitorDetail` and
the visitor-context part of `formatSessionDetail`). -/
structure Visitor where
  visitorId : Option String
  profileTitle : Option String
  sessionCount : Option ℚ
  overallSentiment : Option String
  engagementTrend : Option String
  segmentName : Option String
  segmentId : Option ℚ
  firstVisitAt : Option String
  lastVisitAt : Option String
  deviceType : Option String
  browser : Option String
  os : Option String
  city : Option String
  region : Option String
  firstCountry : Option String
  firstReferer : Option String
  profileSummary : Option String
  primaryInterests : Option (List String)
  goalsInferred : Option (List String)
  recommendedAction : Option String
  evidence : Option (List String)

/-- The per-visitor block of `formatVisitors` (src/index.ts:607-653). -/
def renderVisitor (v : Visitor) : String :=
  let sentiment := guardS v.overallSentiment (fun s => " | " ++ s)
  let trend := guardS v.engagementTrend (fun s => " | Trend: " ++ s)
  let segment := guardS v.segmentName (fun s =>
    " | Segment: " ++ s ++ " (ID: " ++ jsNumOpt v.segmentId ++ ")")
  "\n### " ++ jsOrUndef v.profileTitle v.visitorId ++ "\n"
  ++ "- **Visitor ID:** " ++ jsStr v.visitorId ++ "\n"
  ++ "- **Sessions:** " ++ jsNumOpt v.sessionCount ++ sentiment ++ trend ++ segment ++ "\n"
  ++ "- **First Visit:** " ++ toLocaleDateString v.firstVisitAt ++ "\n"
  ++ "- **Last Visit:** " ++ toLocaleDateString v.lastVisitAt ++ "\n"
  ++ (if truthyS v.deviceType || truthyS v.browser || truthyS v.os then
        "- **Device:** "
          ++ String.intercalate " / " (filterTruthy [v.deviceType, v.browser, v.os]) ++ "\n"
      else "")
  ++ (if truthyS v.city || truthyS v.region || truthyS v.firstCountry then
        "- **Location:** "
          ++ String.intercalate ", " (filterTruthy [v.city, v.region, v.firstCountry]) ++ "\n"
      else if truthyS v.firstCountry then
        "- **Country:** " ++ jsStr v.firstCountry ++ "\n"
      else "")
  ++ (match v.firstReferer with
      | some s => if !(s == "") && !(s == "direct") then
            "- **Referrer:** " ++ s ++ "\n"
          else ""
      | none => "")
  ++ guardS v.profileSummary (fun s => "- **Profile:** " ++ s ++ "\n")
  ++ (match v.primaryInterests with
      | some l => if l.length > 0 then
            "- **Interests:** " ++ String.intercalate ", " l ++ "\n"
          else ""
      | none => "")
  ++ (match v.goalsInferred with
      | some l => if l.length > 0 then
            "- **Inferred Goals:** " ++ String.intercalate ", " l ++ "\n"
          else ""
      | none => "")
  ++ guardS v.recommendedAction (fun s => "- **Recommended Action:** " ++ s ++ "\n")
  ++ (match v.evidence with
      | some l => if l.length > 0 then
            "- **Evidence:** " ++ String.intercalate "; " l ++ "\n"
          else ""
      | none => "")

/-- The `get_visitors` response payload. -/
structure VisitorsData where
  visitors : List Visitor
  total : Option ℚ
  limit : Option ℚ
  offset : Option ℚ
  dataRetention : Option Retention

/-- The header of `formatVisitors` (src/index.ts:596-597). -/
def visitorsHead (d : VisitorsData) : String :=
  "## Visitors\n\n"
  ++ "Showing " ++ jsNumToString (d.visitors.length : ℚ) ++ " of " ++ jsNumOpt d.total
  ++ " visitors (limit: " ++ jsNumOpt d.limit ++ ", offset: " ++ jsNumOpt d.offset ++ "):\n"

/-- `formatVisitors` (src/index.ts:593-661): both the empty and the
non-empty path append the retention notice before trimming. -/
def formatVisitors (d : VisitorsData) : String :=
  if d.visitors.length = 0 then
    jsTrim (visitorsHead d ++ "\nNo visitors found matching the criteria.\n"
      ++ retentionNotice d.dataRetention)
  else
    jsTrim (visitorsHead d ++ d.visitors.foldl (fun acc v => acc ++ renderVisitor v) ""
      ++ retentionNotice d.dataRetention)

/-- A session record of the sessions list / recent-sessions list. -/
structure SessionItem where
  id : Option ℚ
  startTime : Option String
  sentiment : Option String
  visitorId : Option String
  duration : Option ℚ
  eventsCount : Option ℚ
  deviceType : Option String
  entryPage : Option String
  exitPage : Option String
  pageCount : Option ℚ
  pagesVisited : Option (List String)
  title : Option String
  description : Option String

/-- The per-session block of `formatSessions` (src/index.ts:775-811). -/
def renderSessionItem (s : SessionItem) : String :=
  "\n### Session " ++ jsNumOpt s.id ++ " - " ++ toLocaleDateString s.startTime
  ++ " " ++ toLocaleTimeString s.startTime
  ++ guardS s.sentiment (fun x => " [" ++ x ++ "]") ++ "\n"
  ++ "- **Visitor:** " ++ jsStr s.visitorId ++ "\n"
  ++ "- **Duration:** " ++ jsNumToString (orZero s.duration) ++ "s\n"
  ++ "- **Events:** " ++ jsNumToString (orZero s.eventsCount) ++ "\n"
  ++ guardS s.deviceType (fun x => "- **Device:** " ++ x ++ "\n")
  ++ guardS s.entryPage (fun x => "- **Entry Page:** " ++ x ++ "\n")
  ++ guardS s.exitPage (fun x => "- **Exit Page:** " ++ x ++ "\n")
  ++ guardQ s.pageCount (fun n => "- **Pages Visited:** " ++ jsNumToString n
      ++ (match s.pagesVisited with
          | some l => " (" ++ String.intercalate ", " l ++ ")"
          | none => "")
      ++ "\n")
  ++ guardS s.title (fun x => "- **Title:** " ++ x ++ "\n")
  ++ guardS s.description (fun x => "- **Description:** " ++ x ++ "\n")

/-- The `get_sessions` response payload. -/
structure SessionsData where
  sessions : List SessionItem
  total : Option ℚ
  limit : Option ℚ
  offset : Option ℚ
  dataRetention : Option Retention

/-- The header of `formatSessions` (src/index.ts:764-765). -/
def sessionsHead (d : SessionsData) : String :=
  "## Sessions\n\n"
  ++ "Showing " ++ jsNumToString (d.sessions.length : ℚ) ++ " of " ++ jsNumOpt d.total
  ++ " sessions (limit: " ++ jsNumOpt d.limit ++ ", offset: " ++ jsNumOpt d.offset ++ "):\n"

/-- `formatSessions` (src/index.ts:761-819): both the empty and the
non-empty path append the retention notice before trimming. -/
def formatSessions (d : SessionsData) : String :=
  if d.sessions.length = 0 then
    jsTrim (sessionsHead d ++ "\nNo sessions found matching the criteria.\n"
      ++ retentionNotice d.dataRetention)
  else
    jsTrim (sessionsHead d ++ d.sessions.foldl (fun acc s => acc ++ renderSessionItem s) ""
      ++ retentionNotice d.dataRetention)

/-- The `get_visitor_detail` response payload. -/
structure VisitorDetailData where
  visitor : Visitor
  recentSessions : Option (List SessionItem)
  dataRetention : Option Retention

/-- One recent-session block of `formatVisitorDetail`
(src/index.ts:736-749). -/
def renderRecentSession (s : SessionItem) : String :=
  "\n**Session " ++ jsNumOpt s.id ++ "** - " ++ toLocaleDateString s.startTime
  ++ guardS s.sentiment (fun x => " [" ++ x ++ "]") ++ "\n"
  ++ guardS s.title (fun x => "Title: " ++ x ++ "\n")
  ++ guardS s.description (fun x => x ++ "\n")
  ++ "Duration: " ++ jsNumToString (orZero s.duration) ++ "s | Events: "
  ++ jsNumToString (orZero s.eventsCount)
  ++ guardS s.deviceType (fun x => " | Device: " ++ x)
  ++ "\n"

/-- The visitor-profile part of `formatVisitorDetail`
(src/index.ts:667-732). -/
def visitorProfilePart (v : Visitor) : String :=
  "## Visitor Profile: " ++ jsOrUndef v.profileTitle v.visitorId ++ "\n"
  ++ ("\n**Visitor ID:** " ++ jsStr v.visitorId
    ++ "\n**First Visit:** " ++ toLocaleDateString v.firstVisitAt
    ++ "\n**Last Visit:** " ++ toLocaleDateString v.lastVisitAt ++ "\n")
  ++ (if truthyS v.deviceType || truthyS v.browser || truthyS v.os then
        "\n### Device Info\n"
        ++ guardS v.deviceType (fun s => "- **Device Type:** " ++ s ++ "\n")
        ++ guardS v.browser (fun s => "- **Browser:** " ++ s ++ "\n")
        ++ guardS v.os (fun s => "- **OS:** " ++ s ++ "\n")
      else "")
  ++ (if truthyS v.city || truthyS v.region || truthyS v.firstCountry then
        "**Location:** "
          ++ String.intercalate ", " (filterTruthy [v.city, v.region, v.firstCountry]) ++ "\n"
      else if truthyS v.firstCountry then
        "**Country:** " ++ jsStr v.firstCountry ++ "\n"
      else "")
  ++ (match v.firstReferer with
      | some s => if !(s == "") && !(s == "direct") then
            "**Referrer:** " ++ s ++ "\n"
          else ""
      | none => "")
  ++ guardS v.segmentName (fun s => "**Segment:** " ++ s ++ "\n")
  ++ guardS v.overallSentiment (fun s => "**Overall Sentiment:** " ++ s ++ "\n")
  ++ guardS v.engagementTrend (fun s => "**Engagement Trend:** " ++ s ++ "\n")
  ++ guardS v.profileSummary (fun s => "\n### Profile Summary\n" ++ s ++ "\n")
  ++ (match v.primaryInterests with
      | some l => if l.length > 0 then
            "\n### Primary Interests\n" ++ l.foldl (fun acc i => acc ++ "- " ++ i ++ "\n") ""
          else ""
      | none => "")
  ++ (match v.goalsInferred with
      | some l => if l.length > 0 then
            "\n### Inferred Goals\n" ++ l.foldl (fun acc g => acc ++ "- " ++ g ++ "\n") ""
          else ""
      | none => "")
  ++ guardS v.recommendedAction (fun s => "\n### Recommended Action\n" ++ s ++ "\n")
  ++ (match v.evidence with
      | some l => if l.length > 0 then
            "\n### Supporting Evidence\n"
              ++ (l.take 5).foldl (fun acc e => acc ++ "- " ++ e ++ "\n") ""
          else ""
      | none => "")

/-- The recent-sessions section of `formatVisitorDetail`
(src/index.ts:734-750). -/
def recentSessionsPart (o : Option (List SessionItem)) : String :=
  match o with
  | some l => if l.length > 0 then
        "\n### Recent Sessions (" ++ jsNumToString (l.length : ℚ) ++ ")\n"
          ++ l.foldl (fun acc s => acc ++ renderRecentSession s) ""
      else ""
  | none => ""

/-- `formatVisitorDetail` (src/index.ts:664-758). -/
def formatVisitorDetail (d : VisitorDetailData) : String :=
  jsTrim (visitorProfilePart d.visitor
    ++ recentSessionsPart d.recentSessions
    ++ retentionNotice d.dataRetention)

/-- One event of the session-detail timeline. -/
structure SessionEvent where
  type : Option String
  timestamp : Option String
  data : Option Jx

/-- The event-type-specific part of one timeline line: the `switch` on
`event.type` (src/index.ts:902-948). -/
def renderEventData (t : Option String) (d : Jx) : String :=
  if t == some "page_view" then
    " " ++ (if jxTruthy (jget d "path") then jxInterp (jget d "path") else "/")
    ++ (if jxTruthy (jget d "title") then " \"" ++ jxInterp (jget d "title") ++ "\"" else "")
    ++ (if jxTruthy (jget d "referrer") then
          " (referrer: " ++ jxInterp (jget d "referrer") ++ ")"
        else "")
  else if t == some "click" then
    (if jxTruthy (jget d "label") then " \"" ++ jxInterp (jget d "label") ++ "\"" else "")
    ++ " <" ++ (if jxTruthy (jget d "tagName") then jxInterp (jget d "tagName") else "UNKNOWN")
    ++ ">"
    ++ (if jxTruthy (jget d "id") then " #" ++ jxInterp (jget d "id") else "")
    ++ (if jxTruthy (jget d "selector") then " [" ++ jxInterp (jget d "selector") ++ "]" else "")
    ++ (if jxTruthy (jget d "destinationUrl") then
          " → " ++ jxInterp (jget d "destinationUrl")
        else "")
    ++ (if jxTruthy (jget d "sourcePath") then " on " ++ jxInterp (jget d "sourcePath") else "")
  else if t == some "form_submit" then
    " <FORM>"
    ++ (if jxTruthy (jget d "id") then " #" ++ jxInterp (jget d "id") else "")
    ++ (if jxTruthy (jget d "name") then " name=\"" ++ jxInterp (jget d "name") ++ "\"" else "")
    ++ (if jxTruthy (jget d "method") then " method=" ++ jxInterp (jget d "method") else "")
    ++ (if jxTruthy (jget d "destinationUrl") then
          " → " ++ jxInterp (jget d "destinationUrl")
        else "")
    ++ (if jxTruthy (jget d "sourcePath") then " on " ++ jxInterp (jget d "sourcePath") else "")
  else if t == some "scroll_depth" then
    " " ++ jxInterp (jget d "depth") ++ "%"
    ++ (if jxTruthy (jget d "sourcePath") then " on " ++ jxInterp (jget d "sourcePath") else "")
  else if t == some "web_vital" then
    " " ++ jxInterp (jget d "metric") ++ "=" ++ jxInterp (jget d "value")
    ++ (if jxIsStr (jget d "metric") "CLS" then "" else "ms")
    ++ (if jxTruthy (jget d "sourceUrl") then
          " on " ++ urlPathname (jxInterp (jget d "sourceUrl"))
        else "")
  else
    " " ++ jstringify d

/-- One timeline line of `formatSessionDetail` (src/index.ts:897-951). -/
def renderEvent (e : SessionEvent) : String :=
  let eventTime :=
    match e.timestamp with
    | some ts => if ts == "" then "" else toLocaleTimeString (some ts)
    | none => ""
  "- **" ++ jsStr e.type ++ "**"
  ++ (if eventTime == "" then "" else " (" ++ eventTime ++ ")")
  ++ (match e.data with
      | some d => if jxTruthy (some d) then renderEventData e.type d else ""
      | none => "")
  ++ "\n"

/-- The per-type event counts (src/index.ts:884-888): a plain JS object
used as a map, modelled with insertion order preserved.  (JS additionally
reorders integer-like keys first; event type names are not integer-like.) -/
def eventTypeCounts (events : List SessionEvent) : List (String × ℚ) :=
  events.foldl (fun m e =>
    let t := jsOrS e.type "unknown"
    mapSet m t (orZero (mapGet m t) + 1)) []

/-- The event-summary line (src/index.ts:890-894). -/
def eventSummary (events : List SessionEvent) : String :=
  "**Event Summary:** "
  ++ String.intercalate ", "
      ((eventTypeCounts events).map fun p => p.1 ++ ": " ++ jsNumToString p.2)
  ++ "\n\n"

/-- The session record of `get_session_detail`. -/
structure DetailSession where
  id : Option ℚ
  startTime : Option String
  sentiment : Option String
  duration : Option ℚ
  eventsCount : Option ℚ
  deviceType : Option String
  city : Option String
  region : Option String
  country : Option String
  title : Option String
  description : Option String
  events : Option (List SessionEvent)

/-- The `get_session_detail` response payload. -/
structure SessionDetailData where
  session : DetailSession
  visitor : Option Visitor
  dataRetention : Option Retention

/-- The visitor-context section of `formatSessionDetail`
(src/index.ts:846-874). -/
def visitorContextSection : Option Visitor → String
  | none => ""
  | some v =>
    "\n### Visitor Context\n"
    ++ "**Visitor ID:** " ++ jsStr v.visitorId ++ "\n"
    ++ (if truthyS v.browser || truthyS v.os then
          "**Browser/OS:** " ++ String.intercalate " / " (filterTruthy [v.browser, v.os]) ++ "\n"
        else "")
    ++ guardS v.deviceType (fun s => "**Device Type:** " ++ s ++ "\n")
    ++ (if truthyS v.region || truthyS v.city then
          "**Location:** " ++ String.intercalate ", " (filterTruthy [v.city, v.region]) ++ "\n"
        else "")
    ++ guardS v.profileTitle (fun s => "**Profile:** " ++ s ++ "\n")
    ++ guardS v.profileSummary (fun s => "**Summary:** " ++ s ++ "\n")
    ++ guardS v.overallSentiment (fun s => "**Overall Sentiment:** " ++ s ++ "\n")
    ++ guardS v.engagementTrend (fun s => "**Engagement Trend:** " ++ s ++ "\n")
    ++ guardS v.segmentName (fun s => "**Segment:** " ++ s ++ "\n")

/-- The events-timeline section of `formatSessionDetail`
(src/index.ts:880-952). -/
def eventsTimelineSection (events : Option (List SessionEvent)) : String :=
  match events with
  | none => ""
  | some evs =>
    if evs.length > 0 then
      "\n### Events Timeline (" ++ jsNumToString (evs.length : ℚ) ++ " events)\n"
      ++ eventSummary evs
      ++ evs.foldl (fun acc e => acc ++ renderEvent e) ""
    else ""

/-- The session-header part of `formatSessionDetail`
(src/index.ts:825-844). -/
def sessionDetailHead (s : DetailSession) : String :=
  ("## Session " ++ jsNumOpt s.id
    ++ guardS s.sentiment (fun x => " [" ++ x ++ "]") ++ "\n")
  ++ ("**Date:** " ++ toLocaleDateString s.startTime ++ " "
    ++ toLocaleTimeString s.startTime ++ "\n")
  ++ ("**Duration:** " ++ jsNumToString (orZero s.duration) ++ "s\n")
  ++ ("**Events:** " ++ jsNumToString (orZero s.eventsCount) ++ "\n")
  ++ guardS s.deviceType (fun x => "**Device:** " ++ x ++ "\n")
  ++ (if truthyS s.region || truthyS s.city then
        "**Location:** "
          ++ String.intercalate ", " (filterTruthy [s.city, s.region, s.country]) ++ "\n"
      else "")
  ++ guardS s.title (fun x => "**Title:** " ++ x ++ "\n")

/-- `formatSessionDetail` (src/index.ts:822-960). -/
def formatSessionDetail (d : SessionDetailData) : String :=
  jsTrim (sessionDetailHead d.session
    ++ visitorContextSection d.visitor
    ++ guardS d.session.description (fun x => "\n### Session Description\n" ++ x ++ "\n")
    ++ eventsTimelineSection d.session.events
    ++ retentionNotice d.dataRetention)

/-- Basic page record of `get_page_context`. -/
structure PageInfo where
  path : String
  title : Option String
  firstSeenAt : Option String
  lastSeenAt : Option String

/-- A `{path, count}` entry of `topPreviousPages`/`topNextPages`/
`topEntryPages`/`topExitPages` (accessed without guards in the source). -/
structure PathCount where
  path : String
  count : ℚ

/-- One period-stat record of a page. -/
structure PageStat where
  periodType : Option String
  periodStart : Option String
  viewCount : Option ℚ
  uniqueVisitors : Option ℚ
  bounceCount : Option ℚ
  entryCount : Option ℚ
  exitCount : Option ℚ
  avgDuration : Option ℚ
  avgScrollDepth : Option ℚ
  avgLcp : Option ℚ
  avgFcp : Option ℚ
  avgFid : Option ℚ
  avgCls : Option ℚ
  topPreviousPages : Option (List PathCount)
  topNextPages : Option (List PathCount)
  aiSummary : Option String
  aiSummaryUpdatedAt : Option String

/-- One per-period stat of a tracked element. -/
structure ElemStat where
  periodStart : Option String
  interactionCount : Option ℚ
  uniqueVisitors : Option ℚ
deriving DecidableEq

/-- One tracked interactive element (`element.stats` is accessed without a
guard by the source, hence a plain list). -/
structure PageElement where
  id : Option ℚ
  label : Option String
  ariaLabel : Option String
  elementId : Option String
  tagName : Option String
  category : Option String
  destinationUrl : Option String
  stats : List ElemStat
deriving DecidableEq

/-- The `get_page_context` response payload (`page`, `stats` and
`elements` are destructured and accessed without guards in the source:
the guaranteed skeleton). -/
structure PageData where
  page : PageInfo
  stats : List PageStat
  elements : List PageElement
  dataRetention : Option Retention

/-- The accumulator of the `stats.reduce` totals (src/index.ts:298-304). -/
structure PageTotals where
  views : ℚ
  uniqueVisitors : ℚ
  bounces : ℚ
  entries : ℚ
  exits : ℚ

/-- `stats.reduce(...)` of `formatPageContext` (src/index.ts:298-304). -/
def pageTotals (stats : List PageStat) : PageTotals :=
  stats.foldl (fun acc s =>
    ⟨acc.views + orZero s.viewCount, acc.uniqueVisitors + orZero s.uniqueVisitors,
     acc.bounces + orZero s.bounceCount, acc.entries + orZero s.entryCount,
     acc.exits + orZero s.exitCount⟩) ⟨0, 0, 0, 0, 0⟩

/-- One row of the recent daily breakdown (src/index.ts:316-319). -/
def renderPageDailyRow (s : PageStat) : String :=
  "| " ++ toLocaleDateString s.periodStart ++ " | Views: " ++ jsNumOpt s.viewCount
  ++ " | Visitors: " ++ jsNumOpt s.uniqueVisitors
  ++ " | Avg Duration: " ++ jsNumOpt s.avgDuration
  ++ "s | Scroll: " ++ jsNumOpt s.avgScrollDepth ++ "% |\n"

/-- The page Web-Vitals section from the latest stat
(src/index.ts:321-329). -/
def pageWebVitals (latest : Option PageStat) : String :=
  match latest with
  | none => ""
  | some s =>
    if truthyQ s.avgLcp || truthyQ s.avgFcp || truthyQ s.avgFid || s.avgCls.isSome then
      "\n### Performance (Web Vitals)\n"
      ++ guardQ s.avgLcp (fun q => "- **LCP** (Largest Contentful Paint): "
          ++ jsNumToString q ++ "ms\n")
      ++ guardQ s.avgFcp (fun q => "- **FCP** (First Contentful Paint): "
          ++ jsNumToString q ++ "ms\n")
      ++ guardQ s.avgFid (fun q => "- **FID** (First Input Delay): "
          ++ jsNumToString q ++ "ms\n")
      ++ (match s.avgCls with
          | some q => "- **CLS** (Cumulative Layout Shift): " ++ jsToFixed 3 q ++ "\n"
          | none => "")
    else ""

/-- The `Map`-accumulation of previous/next page counts over all stats
(src/index.ts:332-345). -/
def accPathCounts (sel : PageStat → Option (List PathCount)) (stats : List PageStat) :
    List (String × ℚ) :=
  stats.foldl (fun m s =>
    match sel s with
    | some l => l.foldl (fun m2 p => mapSet m2 p.path (orZero (mapGet m2 p.path) + p.count)) m
    | none => m) []

/-- Top-5 navigation lines of one page-flow block (src/index.ts:352-367). -/
def pageFlowList (m : List (String × ℚ)) : String :=
  ((sortByDesc Prod.snd m).take 5).foldl
    (fun acc p => acc ++ "- " ++ p.1 ++ " (" ++ jsNumToString p.2 ++ " navigations)\n") ""

/-- The page-flow section (src/index.ts:347-369). -/
def pageFlowSection (stats : List PageStat) : String :=
  let allPrev := accPathCounts PageStat.topPreviousPages stats
  let allNext := accPathCounts PageStat.topNextPages stats
  if allPrev.length > 0 || allNext.length > 0 then
    "\n### Page Flow\n"
    ++ (if allPrev.length > 0 then "**Where users came from:**\n" ++ pageFlowList allPrev else "")
    ++ (if allNext.length > 0 then "**Where users went next:**\n" ++ pageFlowList allNext else "")
  else ""

/-- The page AI-insights section (src/index.ts:372-380); note: no cap. -/
def pageAiInsights (stats : List PageStat) : String :=
  let summaries := stats.filter fun s => truthyS s.aiSummary
  if summaries.length > 0 then
    "\n### AI Insights\n"
    ++ summaries.foldl (fun acc s => acc
        ++ "\n**" ++ (if s.periodType == some "week" then "Week of" else "")
        ++ " " ++ toLocaleDateString s.periodStart ++ "** (updated: "
        ++ (match s.aiSummaryUpdatedAt with
            | some u => if u == "" then "Unknown" else toLocaleDateString (some u)
            | none => "Unknown")
        ++ ")\n" ++ jsStr s.aiSummary ++ "\n") ""
  else ""

/-- The statistics part of `formatPageContext` (src/index.ts:294-381);
the entry/exit-rate lines are kept as single chunks. -/
def pageStatsSection (stats : List PageStat) : String :=
  if stats.length = 0 then "No statistics available for the selected time range.\n"
  else
    ("\n**Summary (" ++ jsNumToString (stats.length : ℚ) ++ " "
      ++ jsOrS (stats.head?.bind PageStat.periodType) "day" ++ "s)**\n")
    ++ ("- Total Views: " ++ jsNumToString (pageTotals stats).views ++ "\n")
    ++ ("- Total Unique Visitors: " ++ jsNumToString (pageTotals stats).uniqueVisitors ++ "\n")
    ++ ("- Total Bounces: " ++ jsNumToString (pageTotals stats).bounces ++ "\n")
    ++ ("- Entry Rate: "
      ++ (if 0 < (pageTotals stats).views then
            jsToFixed 1 (((pageTotals stats).entries / (pageTotals stats).views) * 100)
          else "0") ++ "%\n")
    ++ ("- Exit Rate: "
      ++ (if 0 < (pageTotals stats).views then
            jsToFixed 1 (((pageTotals stats).exits / (pageTotals stats).views) * 100)
          else "0") ++ "%\n")
    ++ "\n**Recent Daily Breakdown:**\n"
    ++ (stats.take 7).foldl (fun acc s => acc ++ renderPageDailyRow s) ""
    ++ pageWebVitals stats.head?
    ++ pageFlowSection stats
    ++ pageAiInsights stats

/-- An element paired with its computed interaction totals
(src/index.ts:391-395). -/
structure RankedElement where
  el : PageElement
  totalInteractions : ℚ
  totalUniqueVisitors : ℚ
deriving DecidableEq

/-- `elementsWithTotals`: map then stable sort by total interactions,
descending (src/index.ts:391-395). -/
def rankElements (elements : List PageElement) : List RankedElement :=
  sortByDesc RankedElement.totalInteractions
    (elements.map fun e =>
      ⟨e, e.stats.foldl (fun sum s => sum + orZero s.interactionCount) 0,
        e.stats.foldl (fun sum s => sum + orZero s.uniqueVisitors) 0⟩)

/-- `element.label || element.ariaLabel || element.elementId ||
element.tagName || 'Unknown'` (src/index.ts:398). -/
def elemLabel (e : PageElement) : String :=
  firstTruthy [e.label, e.ariaLabel, e.elementId, e.tagName] "Unknown"

/-- `element.category?.toUpperCase() || 'OTHER'` (src/index.ts:399). -/
def elemCategory (e : PageElement) : String :=
  match e.category with
  | some s => if s.toUpper == "" then "OTHER" else s.toUpper
  | none => "OTHER"

/-- One element block of `formatPageContext` (src/index.ts:397-417),
including the 7-row per-period cap with its `...and N more periods`
marker. -/
def renderElement (r : RankedElement) : String :=
  "\n**" ++ elemCategory r.el ++ ": " ++ elemLabel r.el ++ "** (ID: " ++ jsNumOpt r.el.id ++ ")\n"
  ++ "- Total Interactions: " ++ jsNumToString r.totalInteractions ++ "\n"
  ++ "- Unique Visitors: " ++ jsNumToString r.totalUniqueVisitors ++ "\n"
  ++ "- Tag: `<" ++ jsOrS r.el.tagName "unknown" ++ ">`"
  ++ guardS r.el.elementId (fun s => " id=\"" ++ s ++ "\"")
  ++ guardS r.el.ariaLabel (fun s => " aria-label=\"" ++ s ++ "\"")
  ++ "\n"
  ++ guardS r.el.destinationUrl (fun s => "- Links to: " ++ s)
  ++ "\n- Per-period breakdown:\n"
  ++ (r.el.stats.take 7).foldl (fun acc s => acc
      ++ "  - " ++ toLocaleDateString s.periodStart ++ ": " ++ jsNumOpt s.interactionCount
      ++ " interactions, " ++ jsNumOpt s.uniqueVisitors ++ " visitors\n") ""
  ++ (if r.el.stats.length > 7 then
        "  - *...and " ++ jsNumToString ((r.el.stats.length : ℚ) - 7) ++ " more periods*\n"
      else "")

/-- The interactive-elements section (src/index.ts:383-422), including
the 20-element cap with its `...and N more elements` marker. -/
def elementsSection (elements : List PageElement) : String :=
  "\n### Interactive Elements (" ++ jsNumToString (elements.length : ℚ) ++ " tracked)\n"
  ++ (if elements.length = 0 then "No interactive elements tracked on this page.\n"
      else
        (((rankElements elements).take 20).foldl (fun acc r => acc ++ renderElement r) "")
        ++ (if (rankElements elements).length > 20 then
              "\n*...and " ++ jsNumToString (((rankElements elements).length : ℚ) - 20)
                ++ " more elements*\n"
            else ""))

/-- `formatPageContext` (src/index.ts:282-430). -/
def formatPageContext (d : PageData) : String :=
  jsTrim ("\n## Page Analytics: " ++ d.page.path ++ "\n"
    ++ guardS d.page.title (fun t => "**Title:** " ++ t)
    ++ "\n**First Seen:** " ++ toLocaleDateString d.page.firstSeenAt
    ++ "\n**Last Seen:** " ++ toLocaleDateString d.page.lastSeenAt
    ++ "\n\n### Page Statistics\n"
    ++ pageStatsSection d.stats
    ++ elementsSection d.elements
    ++ retentionNotice d.dataRetention)

/-- One app-wide period-stat record. -/
structure AppStat where
  periodType : Option String
  periodStart : Option String
  totalSessions : Option ℚ
  uniqueVisitors : Option ℚ
  newVisitors : Option ℚ
  totalPageViews : Option ℚ
  totalClicks : Option ℚ
  totalFormSubmits : Option ℚ
  bounceCount : Option ℚ
  positiveSessions : Option ℚ
  negativeSessions : Option ℚ
  neutralSessions : Option ℚ
  avgSessionDuration : Option ℚ
  avgPagesPerSession : Option ℚ
  avgEventsPerSession : Option ℚ
  bounceRate : Option ℚ
  avgLcp : Option ℚ
  avgFcp : Option ℚ
  avgFid : Option ℚ
  avgCls : Option ℚ
  aiSummary : Option String

/-- A `{path, viewCount}` entry of `topPages`. -/
structure PathViews where
  path : String
  viewCount : ℚ

/-- A `{source, sessions, visitors}` entry of `topReferrers`. -/
structure RefStat where
  source : String
  sessions : ℚ
  visitors : ℚ

/-- A `{country, sessions, visitors}` entry of `topCountries`. -/
structure CountryStat where
  country : String
  sessions : ℚ
  visitors : ℚ

/-- A `{deviceType, sessions, visitors}` entry of `topDevices`. -/
structure DeviceStat where
  deviceType : String
  sessions : ℚ
  visitors : ℚ

/-- A `{browser, sessions, visitors}` entry of `topBrowsers`. -/
structure BrowserStat where
  browser : String
  sessions : ℚ
  visitors : ℚ

/-- An `{os, sessions, visitors}` entry of `topOS`. -/
structure OSStat where
  os : String
  sessions : ℚ
  visitors : ℚ

/-- A `{title, content, createdAt}` entry of `recentInsights`. -/
structure Insight where
  title : String
  content : String
  createdAt : Option String

/-- The `get_app_context` response payload. -/
structure AppData where
  stats : List AppStat
  topPages : Option (List PathViews)
  topEntryPages : Option (List PathCount)
  topExitPages : Option (List PathCount)
  topReferrers : Option (List RefStat)
  topCountries : Option (List CountryStat)
  topDevices : Option (List DeviceStat)
  topBrowsers : Option (List BrowserStat)
  topOS : Option (List OSStat)
  recentInsights : Option (List Insight)
  dataRetention : Option Retention

/-- The accumulator of the app-context `stats.reduce` totals
(src/index.ts:442-453). -/
structure AppTotals where
  sessions : ℚ
  uniqueVisitors : ℚ
  newVisitors : ℚ
  pageViews : ℚ
  totalClicks : ℚ
  totalFormSubmits : ℚ
  bounces : ℚ
  positiveSessions : ℚ
  negativeSessions : ℚ
  neutralSessions : ℚ

/-- `stats.reduce(...)` of `formatAppContext` (src/index.ts:442-453). -/
def appTotals (stats : List AppStat) : AppTotals :=
  stats.foldl (fun acc s =>
    ⟨acc.sessions + orZero s.totalSessions,
     acc.uniqueVisitors + orZero s.uniqueVisitors,
     acc.newVisitors + orZero s.newVisitors,
     acc.pageViews + orZero s.totalPageViews,
     acc.totalClicks + orZero s.totalClicks,
     acc.totalFormSubmits + orZero s.totalFormSubmits,
     acc.bounces + orZero s.bounceCount,
     acc.positiveSessions + orZero s.positiveSessions,
     acc.negativeSessions + orZero s.negativeSessions,
     acc.neutralSessions + orZero s.neutralSessions⟩)
    ⟨0, 0, 0, 0, 0, 0, 0, 0, 0, 0⟩

/-- One row of the app daily breakdown (src/index.ts:485-488). -/
def renderAppDailyRow (s : AppStat) : String :=
  "| " ++ toLocaleDateString s.periodStart
  ++ " | Sessions: " ++ jsNumOpt s.totalSessions
  ++ " | Visitors: " ++ jsNumOpt s.uniqueVisitors
  ++ " | Pages/Session: " ++ jsNumToString (orZero s.avgPagesPerSession)
  ++ " | Clicks: " ++ jsNumToString (orZero s.totalClicks)
  ++ " | Bounce: " ++ jsNumOpt s.bounceRate ++ "% |\n"

/-- The app AI-insights section (src/index.ts:491-498); capped at 3. -/
def appAiInsights (stats : List AppStat) : String :=
  let summaries := stats.filter fun s => truthyS s.aiSummary
  if summaries.length > 0 then
    "\n### AI Insights\n"
    ++ (summaries.take 3).foldl (fun acc s => acc
        ++ "\n**" ++ (if s.periodType == some "week" then "Week of" else "")
        ++ " " ++ toLocaleDateString s.periodStart ++ "**\n" ++ jsStr s.aiSummary ++ "\n") ""
  else ""

/-- `avgSessionDuration` (src/index.ts:456-458). -/
def appAvgSessionDuration (stats : List AppStat) : ℤ :=
  if stats.length > 0 then
    jsRound ((stats.foldl (fun sum s => sum + orZero s.avgSessionDuration) 0)
      / (stats.length : ℚ))
  else 0

/-- `avgPagesPerSession` (src/index.ts:459-461). -/
def appAvgPagesPerSession (stats : List AppStat) : String :=
  if stats.length > 0 then
    jsToFixed 1 ((stats.foldl (fun sum s => sum + orZero s.avgPagesPerSession) 0)
      / (stats.length : ℚ))
  else "0"

/-- `avgEventsPerSession` (src/index.ts:462-464). -/
def appAvgEventsPerSession (stats : List AppStat) : String :=
  if stats.length > 0 then
    jsToFixed 1 ((stats.foldl (fun sum s => sum + orZero s.avgEventsPerSession) 0)
      / (stats.length : ℚ))
  else "0"

/-- `bounceRate` (src/index.ts:465). -/
def appBounceRateStr (stats : List AppStat) : String :=
  if 0 < (appTotals stats).sessions then
    jsToFixed 1 (((appTotals stats).bounces / (appTotals stats).sessions) * 100)
  else "0"

/-- The summary/sentiment/daily/insights part of `formatAppContext`
(src/index.ts:438-499); the bounce-rate line is kept as a single chunk. -/
def appStatsSection (stats : List AppStat) : String :=
  if stats.length = 0 then "\nNo statistics available for the selected time range.\n"
  else
    ("\n### Summary (" ++ jsNumToString (stats.length : ℚ) ++ " "
      ++ jsOrS (stats.head?.bind AppStat.periodType) "day" ++ "s)\n")
    ++ ("- **Total Sessions:** " ++ numToLocaleString (appTotals stats).sessions ++ "\n")
    ++ ("- **Unique Visitors:** " ++ numToLocaleString (appTotals stats).uniqueVisitors ++ "\n")
    ++ ("- **New Visitors:** " ++ numToLocaleString (appTotals stats).newVisitors ++ "\n")
    ++ ("- **Total Page Views:** " ++ numToLocaleString (appTotals stats).pageViews ++ "\n")
    ++ ("- **Total Clicks:** " ++ numToLocaleString (appTotals stats).totalClicks ++ "\n")
    ++ ("- **Total Form Submits:** "
      ++ numToLocaleString (appTotals stats).totalFormSubmits ++ "\n")
    ++ ("- **Avg Session Duration:** " ++ toString (appAvgSessionDuration stats) ++ "s\n")
    ++ ("- **Avg Pages Per Session:** " ++ appAvgPagesPerSession stats ++ "\n")
    ++ ("- **Avg Events Per Session:** " ++ appAvgEventsPerSession stats ++ "\n")
    ++ ("- **Bounce Rate:** " ++ appBounceRateStr stats ++ "%\n")
    ++ "\n### Session Sentiment\n"
    ++ ("- Positive: " ++ jsNumToString (appTotals stats).positiveSessions
      ++ " | Neutral: " ++ jsNumToString (appTotals stats).neutralSessions
      ++ " | Negative: " ++ jsNumToString (appTotals stats).negativeSessions ++ "\n")
    ++ "\n### Daily Breakdown\n"
    ++ (stats.take 7).foldl (fun acc s => acc ++ renderAppDailyRow s) ""
    ++ appAiInsights stats

/-- Top Pages by Views, capped at 5, no truncation marker
(src/index.ts:502-507). -/
def topPagesSection (o : Option (List PathViews)) : String :=
  match o with
  | some l =>
    if l.length > 0 then
      "\n### Top Pages by Views\n"
      ++ (l.take 5).foldl (fun acc p => acc ++ "- " ++ p.path ++ ": "
          ++ jsNumToString p.viewCount ++ " views\n") ""
    else ""
  | none => ""

/-- Top Entry Pages, capped at 5 (src/index.ts:510-515). -/
def topEntryPagesSection (o : Option (List PathCount)) : String :=
  match o with
  | some l =>
    if l.length > 0 then
      "\n### Top Entry Pages\n"
      ++ (l.take 5).foldl (fun acc p => acc ++ "- " ++ p.path ++ ": "
          ++ jsNumToString p.count ++ " entries\n") ""
    else ""
  | none => ""

/-- Top Exit Pages, capped at 5 (src/index.ts:518-523). -/
def topExitPagesSection (o : Option (List PathCount)) : String :=
  match o with
  | some l =>
    if l.length > 0 then
      "\n### Top Exit Pages\n"
      ++ (l.take 5).foldl (fun acc p => acc ++ "- " ++ p.path ++ ": "
          ++ jsNumToString p.count ++ " exits\n") ""
    else ""
  | none => ""

/-- Top Referrers, capped at 5 (src/index.ts:526-531). -/
def topReferrersSection (o : Option (List RefStat)) : String :=
  match o with
  | some l =>
    if l.length > 0 then
      "\n### Top Referrers\n"
      ++ (l.take 5).foldl (fun acc r => acc ++ "- " ++ r.source ++ ": "
          ++ jsNumToString r.sessions ++ " sessions, "
          ++ jsNumToString r.visitors ++ " visitors\n") ""
    else ""
  | none => ""

/-- Top Countries, capped at 5 (src/index.ts:534-539). -/
def topCountriesSection (o : Option (List CountryStat)) : String :=
  match o with
  | some l =>
    if l.length > 0 then
      "\n### Top Countries\n"
      ++ (l.take 5).foldl (fun acc c => acc ++ "- " ++ c.country ++ ": "
          ++ jsNumToString c.sessions ++ " sessions, "
          ++ jsNumToString c.visitors ++ " visitors\n") ""
    else ""
  | none => ""

/-- Device Breakdown — NOT capped (src/index.ts:542-547). -/
def deviceBreakdownSection (o : Option (List DeviceStat)) : String :=
  match o with
  | some l =>
    if l.length > 0 then
      "\n### Device Breakdown\n"
      ++ l.foldl (fun acc dv => acc ++ "- " ++ dv.deviceType ++ ": "
          ++ jsNumToString dv.sessions ++ " sessions, "
          ++ jsNumToString dv.visitors ++ " visitors\n") ""
    else ""
  | none => ""

/-- Top Browsers, capped at 5 (src/index.ts:550-555). -/
def topBrowsersSection (o : Option (List BrowserStat)) : String :=
  match o with
  | some l =>
    if l.length > 0 then
      "\n### Top Browsers\n"
      ++ (l.take 5).foldl (fun acc b => acc ++ "- " ++ b.browser ++ ": "
          ++ jsNumToString b.sessions ++ " sessions, "
          ++ jsNumToString b.visitors ++ " visitors\n") ""
    else ""
  | none => ""

/-- Top Operating Systems, capped at 5 (src/index.ts:558-563). -/
def topOSSection (o : Option (List OSStat)) : String :=
  match o with
  | some l =>
    if l.length > 0 then
      "\n### Top Operating Systems\n"
      ++ (l.take 5).foldl (fun acc x => acc ++ "- " ++ x.os ++ ": "
          ++ jsNumToString x.sessions ++ " sessions, "
          ++ jsNumToString x.visitors ++ " visitors\n") ""
    else ""
  | none => ""

/-- The app Web-Vitals section from the latest stat
(src/index.ts:565-573). -/
def appWebVitals (latest : Option AppStat) : String :=
  match latest with
  | none => ""
  | some s =>
    if truthyQ s.avgLcp || truthyQ s.avgFcp || truthyQ s.avgFid || s.avgCls.isSome then
      "\n### Performance (Web Vitals)\n"
      ++ guardQ s.avgLcp (fun q => "- **LCP** (Largest Contentful Paint): "
          ++ jsNumToString q ++ "ms\n")
      ++ guardQ s.avgFcp (fun q => "- **FCP** (First Contentful Paint): "
          ++ jsNumToString q ++ "ms\n")
      ++ guardQ s.avgFid (fun q => "- **FID** (First Input Delay): "
          ++ jsNumToString q ++ "ms\n")
      ++ (match s.avgCls with
          | some q => "- **CLS** (Cumulative Layout Shift): " ++ jsToFixed 3 q ++ "\n"
          | none => "")
    else ""

/-- Recent Insights, capped at 3 (src/index.ts:576-582). -/
def recentInsightsSection (o : Option (List Insight)) : String :=
  match o with
  | some l =>
    if l.length > 0 then
      "\n### Recent Insights\n"
      ++ (l.take 3).foldl (fun acc i => acc ++ "\n**" ++ i.title ++ "** ("
          ++ toLocaleDateString i.createdAt ++ ")\n" ++ i.content ++ "\n") ""
    else ""
  | none => ""

/-- `formatAppContext` (src/index.ts:433-590). -/
def formatAppContext (d : AppData) : String :=
  jsTrim ("## Application Analytics Overview\n"
    ++ appStatsSection d.stats
    ++ topPagesSection d.topPages
    ++ topEntryPagesSection d.topEntryPages
    ++ topExitPagesSection d.topExitPages
    ++ topReferrersSection d.topReferrers
    ++ topCountriesSection d.topCountries
    ++ deviceBreakdownSection d.topDevices
    ++ topBrowsersSection d.topBrowsers
    ++ topOSSection d.topOS
    ++ appWebVitals d.stats.head?
    ++ recentInsightsSection d.recentInsights
    ++ retentionNotice d.dataRetention)

/-- One page record of the `list_pages` response (JSON `null` and absent
fields are both modelled `none`; the source distinguishes them only in
`viewCount !== null && viewCount !== undefined`, where both are skipped). -/
structure PageListItem where
  path : String
  title : Option String
  firstSeenAt : Option String
  lastSeenAt : Option String
  viewCount : Option ℚ
  uniqueVisitors : Option ℚ
  bounceCount : Option ℚ
  avgDuration : Option ℚ
  avgScrollDepth : Option ℚ

/-- The `list_pages` response payload. -/
structure PagesData where
  pages : List PageListItem
  total : Option ℚ
  dataRetention : Option Retention

/-- One row of the `list_pages` report (src/index.ts:1499-1512). -/
def pagesRow (p : PageListItem) : String :=
  let firstSeen := toLocaleDateString p.firstSeenAt
  let lastSeen := toLocaleDateString p.lastSeenAt
  let trafficInfo :=
    match p.viewCount with
    | some v =>
      let bounceRate :=
        match p.bounceCount with
        | some b => if decide (0 < v) then jsToFixed 0 ((b / v) * 100) else "?"
        | none => "?"
      " | Views: " ++ jsNumToString v ++ ", Visitors: " ++ qqStr p.uniqueVisitors
      ++ ", Bounce: " ++ bounceRate ++ "%, Avg Duration: " ++ qqStr p.avgDuration
      ++ "s, Scroll: " ++ qqStr p.avgScrollDepth ++ "%"
    | none => " | No recent traffic data"
  "- **" ++ p.path ++ "**" ++ guardS p.title (fun t => " - " ++ t)
  ++ " (" ++ firstSeen ++ " to " ++ lastSeen ++ trafficInfo ++ ")\n"

/-- The inline report of the `list_pages` handler (src/index.ts:1487-1523).
Note the empty-list early return, which skips the retention notice. -/
def formatListPages (d : PagesData) : String :=
  if d.pages.length = 0 then
    "No pages found. Make sure tracking is set up and data has been collected."
  else
    jsTrim ("## Tracked Pages\n\n"
      ++ "Found " ++ jsNumToString (d.pages.length : ℚ) ++ " pages"
      ++ (if optGtQ d.total (d.pages.length : ℚ) then
            " (showing first " ++ jsNumToString (d.pages.length : ℚ) ++ " of "
              ++ jsNumOpt d.total ++ ")"
          else "")
      ++ ":\n\n"
      ++ d.pages.foldl (fun acc p => acc ++ pagesRow p) ""
      ++ retentionNotice d.dataRetention)

/-- One element record of the `get_element_context` response. -/
structure FoundElement where
  id : Option ℚ
  category : Option String
  label : Option String
  elementId : Option String
  elementName : Option String
  ariaLabel : Option String
  tagName : Option String
  pagePath : Option String
  destinationUrl : Option String
  totalInteractions : Option ℚ
  uniqueVisitors : Option ℚ
  firstSeenAt : Option String
  lastSeenAt : Option String

/-- The `get_element_context` response payload. -/
structure ElementsData where
  elements : List FoundElement
  dataRetention : Option Retention

/-- One element block of the `get_element_context` report
(src/index.ts:1562-1576). -/
def foundElementRow (e : FoundElement) : String :=
  "\n### "
  ++ (match e.category with
      | some s => if s.toUpper == "" then "ELEMENT" else s.toUpper
      | none => "ELEMENT")
  ++ ": " ++ firstTruthy [e.label, e.elementId] "Unknown"
  ++ " (ID: " ++ jsNumOpt e.id ++ ")\n"
  ++ "- **Page:** " ++ jsStr e.pagePath ++ "\n"
  ++ "- **Tag:** `<" ++ jsOrS e.tagName "unknown" ++ ">`\n"
  ++ "- **HTML ID:** " ++ jsOrS e.elementId "N/A" ++ "\n"
  ++ "- **Name:** " ++ jsOrS e.elementName "N/A" ++ "\n"
  ++ "- **ARIA Label:** " ++ jsOrS e.ariaLabel "N/A" ++ "\n"
  ++ "- **Category:** " ++ jsOrS e.category "N/A" ++ "\n"
  ++ guardS e.destinationUrl (fun s => "- **Links to:** " ++ s)
  ++ "\n- **Total Interactions:** " ++ jsNumOpt e.totalInteractions ++ "\n"
  ++ "- **Unique Visitors:** " ++ jsNumOpt e.uniqueVisitors ++ "\n"
  ++ "- **First Seen:** " ++ toLocaleDateString e.firstSeenAt ++ "\n"
  ++ "- **Last Seen:** " ++ toLocaleDateString e.lastSeenAt ++ "\n"

/-- The inline report of the `get_element_context` handler
(src/index.ts:1551-1589).  Note the empty-list early return, which skips
the retention notice. -/
def formatElementsFound (d : ElementsData) : String :=
  if d.elements.length = 0 then
    "No elements found matching the criteria."
  else
    jsTrim ("## Elements Found\n\nFound " ++ jsNumToString (d.elements.length : ℚ)
      ++ " matching element(s):\n"
      ++ d.elements.foldl (fun acc e => acc ++ foundElementRow e) ""
      ++ retentionNotice d.dataRetention)

/-- Which tool produced a response: the nine success payloads. -/
inductive ToolPayload where
  | pageContext (d : PageData)
  | listPages (d : PagesData)
  | elements (d : ElementsData)
  | appContext (d : AppData)
  | visitors (d : VisitorsData)
  | visitorDetail (d : VisitorDetailData)
  | sessions (d : SessionsData)
  | sessionDetail (d : SessionDetailData)
  | userFlows (d : FlowsData)

/-- The formatted success report of each tool. -/
def formatted : ToolPayload → String
  | .pageContext d => formatPageContext d
  | .listPages d => formatListPages d
  | .elements d => formatElementsFound d
  | .appContext d => formatAppContext d
  | .visitors d => formatVisitors d
  | .visitorDetail d => formatVisitorDetail d
  | .sessions d => formatSessions d
  | .sessionDetail d => formatSessionDetail d
  | .userFlows d => formatUserFlows d

/-- The `_dataRetention` sub-object of each payload. -/
def retentionOf : ToolPayload → Option Retention
  | .pageContext d => d.dataRetention
  | .listPages d => d.dataRetention
  | .elements d => d.dataRetention
  | .appContext d => d.dataRetention
  | .visitors d => d.dataRetention
  | .visitorDetail d => d.dataRetention
  | .sessions d => d.dataRetention
  | .sessionDetail d => d.dataRetention
  | .userFlows d => d.dataRetention

/-- The three early-return paths that skip the retention notice: an
absent/empty flows list, an empty pages list, an empty elements list. -/
def noticeSkipped : ToolPayload → Prop
  | .listPages d => d.pages = []
  | .elements d => d.elements = []
  | .userFlows d => d.flows = none ∨ d.flows = some []
  | _ => False

theorem contains_of_eq_append {s a m b : String} (h : s = a ++ m ++ b) :
    Contains s m := by
  subst h
  exact ⟨a.data, b.data, by simp⟩

theorem Contains.appendL {s m : String} (x : String) (h : Contains s m) :
    Contains (x ++ s) m := by
  obtain ⟨u, v, huv⟩ := h
  exact ⟨x.data ++ u, v, by simp [← huv]⟩

theorem Contains.appendR {s m : String} (y : String) (h : Contains s m) :
    Contains (s ++ y) m := by
  obtain ⟨u, v, huv⟩ := h
  exact ⟨u, v ++ y.data, by simp [← huv]⟩

theorem contains_self_append (m b : String) : Contains (m ++ b) m :=
  ⟨[], b.data, by simp⟩

theorem dropWhile_ne_nil_of_mem {p : Char → Bool} {x : List Char} {c : Char}
    (hc : c ∈ x) (hpc : p c = false) : x.dropWhile p ≠ [] := by
  induction x with
  | nil => cases hc
  | cons a l ih =>
    rcases List.mem_cons.mp hc with h | h
    · subst h
      simp [List.dropWhile_cons, hpc]
    · by_cases hpa : p a
      · simpa [List.dropWhile_cons, hpa] using ih h
      · simp [List.dropWhile_cons, hpa]

/-- Trimming `x ++ m ++ y` preserves the suffix `m` exactly, provided `x`
contains some non-whitespace character, `m` ends with a non-whitespace
character, and `y` is all whitespace. -/
theorem trimChars_append_end (x m y : List Char)
    (hx : ∃ c ∈ x, jsWs c = false)
    (hm : ∃ r c, m = r ++ [c] ∧ jsWs c = false)
    (hy : ∀ c ∈ y, jsWs c = true) :
    ∃ x', trimChars (x ++ m ++ y) = x' ++ m := by
  obtain ⟨cx, hcx, hcxw⟩ := hx
  obtain ⟨r, c, hm, hcw⟩ := hm
  have hne : x.dropWhile jsWs ≠ [] := dropWhile_ne_nil_of_mem hcx hcxw
  have step1 : (x ++ m ++ y).dropWhile jsWs = x.dropWhile jsWs ++ (m ++ y) := by
    rw [List.append_assoc, List.dropWhile_append]
    simp [List.isEmpty_iff, hne]
  refine ⟨x.dropWhile jsWs, ?_⟩
  unfold trimChars
  rw [step1]
  have step2 : (x.dropWhile jsWs ++ (m ++ y)).reverse
      = y.reverse ++ (m.reverse ++ (x.dropWhile jsWs).reverse) := by
    simp [List.reverse_append]
  rw [step2]
  have step3 : (y.reverse ++ (m.reverse ++ (x.dropWhile jsWs).reverse)).dropWhile jsWs
      = m.reverse ++ (x.dropWhile jsWs).reverse := by
    rw [List.dropWhile_append_of_pos (by intro a ha; exact hy a (List.mem_reverse.mp ha))]
    have : m.reverse = c :: r.reverse := by rw [hm]; simp
    rw [this, List.cons_append, List.dropWhile_cons_of_neg (by simp [hcw])]
  rw [step3]
  simp [hm]

/-- Trimming preserves any interior occurrence of `m`, provided `m` begins
and ends with non-whitespace characters. -/
theorem trimChars_keeps_inner (x m y : List Char)
    (h1 : ∃ c r, m = c :: r ∧ jsWs c = false)
    (h2 : ∃ r c, m = r ++ [c] ∧ jsWs c = false) :
    ∃ x' y', trimChars (x ++ m ++ y) = x' ++ m ++ y' := by
  obtain ⟨c1, r1, hm1, hc1⟩ := h1
  obtain ⟨r2, c2, hm2, hc2⟩ := h2
  have step1 : ∃ x₁, (x ++ m ++ y).dropWhile jsWs = x₁ ++ (m ++ y) := by
    rw [List.append_assoc, List.dropWhile_append]
    by_cases he : (x.dropWhile jsWs).isEmpty
    · refine ⟨[], ?_⟩
      simp only [he, if_true]
      rw [hm1, List.cons_append, List.dropWhile_cons_of_neg (by simp [hc1])]
      simp [hm1]
    · exact ⟨x.dropWhile jsWs, by simp [he]⟩
  obtain ⟨x₁, hx₁⟩ := step1
  have step2 : ∃ y₁, ((x₁ ++ (m ++ y)).reverse).dropWhile jsWs
      = y₁ ++ (m.reverse ++ x₁.reverse) := by
    have hrev : (x₁ ++ (m ++ y)).reverse = y.reverse ++ (m.reverse ++ x₁.reverse) := by
      simp [List.reverse_append]
    rw [hrev, List.dropWhile_append]
    by_cases he : (y.reverse.dropWhile jsWs).isEmpty
    · refine ⟨[], ?_⟩
      simp only [he, if_true]
      have hmr : m.reverse = c2 :: r2.reverse := by rw [hm2]; simp
      rw [hmr, List.cons_append, List.dropWhile_cons_of_neg (by simp [hc2])]
      rfl
    · exact ⟨y.reverse.dropWhile jsWs, by simp [he]⟩
  obtain ⟨y₁, hy₁⟩ := step2
  refine ⟨x₁, y₁.reverse, ?_⟩
  unfold trimChars
  rw [hx₁, hy₁]
  simp

/-- String-level version: an occurrence of `m` inside `s` (with
non-whitespace first and last characters) survives `jsTrim`. -/
theorem jsTrim_contains {s m : String} (hs : Contains s m)
    (h1 : ∃ c r, m.data = c :: r ∧ jsWs c = false)
    (h2 : ∃ r c, m.data = r ++ [c] ∧ jsWs c = false) :
    Contains (jsTrim s) m := by
  obtain ⟨u, v, huv⟩ := hs
  have hdata : s.data = u ++ m.data ++ v := huv.symm
  obtain ⟨x', y', h⟩ := trimChars_keeps_inner u m.data v h1 h2
  refine ⟨x', y', ?_⟩
  show x' ++ m.data ++ y' = (jsTrim s).data
  rw [jsTrim, hdata] at *
  exact h.symm

/-- String-level version of `trimChars_append_end`: `jsTrim (body ++
("\n" ++ core ++ "\n"))` ends with `core` exactly. -/
theorem jsTrim_endsWith (body core : String)
    (hb : ∃ c ∈ body.data, jsWs c = false)
    (hc : ∃ r c, core.data = r ++ [c] ∧ jsWs c = false) :
    EndsWith (jsTrim (body ++ ("\n" ++ core ++ "\n"))) core := by
  have hdata : (body ++ ("\n" ++ core ++ "\n")).data
      = (body.data ++ ['\n']) ++ core.data ++ ['\n'] := by
    simp [String.data_append]
  have hx : ∃ c ∈ body.data ++ ['\n'], jsWs c = false := by
    obtain ⟨c, hcmem, hcw⟩ := hb
    exact ⟨c, List.mem_append_left _ hcmem, hcw⟩
  obtain ⟨x', h⟩ := trimChars_append_end (body.data ++ ['\n']) core.data ['\n']
    hx hc (by intro c hcy; simp at hcy; simp [hcy, jsWs])
  refine ⟨x', ?_⟩
  show x' ++ core.data = (jsTrim _).data
  rw [jsTrim, hdata]
  exact h.symm

/-- A loop `for (x of l) output += f(x)` contains each `f x` for `x ∈ l`. -/
theorem foldl_append_init {α : Type} (f : α → String) (l : List α) (init : String) :
    ∃ t, l.foldl (fun acc a => acc ++ f a) init = init ++ t := by
  induction l generalizing init with
  | nil => exact ⟨"", by simp⟩
  | cons y ys ih =>
    obtain ⟨t, ht⟩ := ih (init ++ f y)
    refine ⟨f y ++ t, ?_⟩
    simp only [List.foldl_cons, ht]
    apply String.ext
    simp

theorem foldl_append_contains {α : Type} (f : α → String) (l : List α)
    (init : String) (x : α) (hx : x ∈ l) :
    Contains (l.foldl (fun acc a => acc ++ f a) init) (f x) := by
  induction l generalizing init with
  | nil => cases hx
  | cons y ys ih =>
    rcases List.mem_cons.mp hx with h | h
    · subst h
      obtain ⟨t, ht⟩ := foldl_append_init f ys (init ++ f x)
      simp only [List.foldl_cons, ht]
      exact ⟨init.data, t.data, by simp⟩
    · simp only [List.foldl_cons]
      exact ih (init ++ f y) h

theorem keys_paramIfS (o : Option String) (k : String) :
    ∀ x ∈ paramIfS o k, x.1 = k := by
  intro x hx
  cases o with
  | none => simp [paramIfS] at hx
  | some s =>
    by_cases hs : s == ""
    · simp [paramIfS, hs] at hx
    · simp [paramIfS, hs] at hx
      simp [hx]

theorem keys_paramIfZ (n : ℤ) (k : String) :
    ∀ x ∈ paramIfZ n k, x.1 = k := by
  intro x hx
  by_cases hn : n == 0
  · simp [paramIfZ, hn] at hx
  · simp [paramIfZ, hn] at hx
    simp [hx]

theorem keys_paramIfOZ (o : Option ℤ) (k : String) :
    ∀ x ∈ paramIfOZ o k, x.1 = k := by
  intro x hx
  cases o with
  | none => simp [paramIfOZ] at hx
  | some n =>
    by_cases hn : n == 0
    · simp [paramIfOZ, hn] at hx
    · simp [paramIfOZ, hn] at hx
      simp [hx]

theorem keys_paramIfDefined (o : Option ℤ) (k : String) :
    ∀ x ∈ paramIfDefined o k, x.1 = k := by
  intro x hx
  cases o with
  | none => simp [paramIfDefined] at hx
  | some n =>
    simp [paramIfDefined] at hx
    simp [hx]

theorem notMem_keys {ps : List (String × String)} {k k' : String}
    (hk : ∀ x ∈ ps, x.1 = k) (hne : k' ≠ k) : k' ∉ ps.map Prod.fst := by
  intro hm
  rw [List.mem_map] at hm
  obtain ⟨x, hx, hfst⟩ := hm
  exact hne (hfst.symm.trans (hk x hx))

theorem notMem_keys_append {A B : List (String × String)} {k : String}
    (hA : k ∉ A.map Prod.fst) (hB : k ∉ B.map Prod.fst) :
    k ∉ (A ++ B).map Prod.fst := by
  rw [List.map_append]
  intro hm
  rcases List.mem_append.mp hm with h | h
  · exact hA h
  · exact hB h

/-- C10: query-string serialization of `get_visitors` and `get_sessions`
guards the validated numeric `limit`/`offset` (and `segmentId`) by JS
truthiness, so a value of `0` — in particular the defaulted `offset: 0` —
is omitted from the outbound query parameters; the
duration/events-count bounds of `get_sessions` use `!== undefined`
presence checks instead and do serialize the value `0`. -/
theorem c10_numeric_param_truthiness (va : VisitorsArgs) (sa : SessionsArgs) :
    (va.offset = 0 → "offset" ∉ (visitorsParams va).map Prod.fst) ∧
    (va.limit = 0 → "limit" ∉ (visitorsParams va).map Prod.fst) ∧
    (sa.offset = 0 → "offset" ∉ (sessionsParams sa).map Prod.fst) ∧
    (sa.limit = 0 → "limit" ∉ (sessionsParams sa).map Prod.fst) ∧
    (sa.minDuration = some 0 → ("minDuration", "0") ∈ sessionsParams sa) ∧
    (sa.minEventsCount = some 0 → ("minEventsCount", "0") ∈ sessionsParams sa) := by
  refine ⟨?_, ?_, ?_, ?_, ?_, ?_⟩
  · intro h0
    unfold visitorsParams
    exact notMem_keys_append (notMem_keys_append (notMem_keys_append
      (notMem_keys_append (notMem_keys_append (notMem_keys_append
      (notMem_keys_append (notMem_keys_append (notMem_keys_append
        (notMem_keys (keys_paramIfZ _ _) (by decide))
        (by simp [h0, paramIfZ]))
        (notMem_keys (keys_paramIfOZ _ _) (by decide)))
        (notMem_keys (keys_paramIfS _ _) (by decide)))
        (notMem_keys (keys_paramIfS _ _) (by decide)))
        (notMem_keys (keys_paramIfS _ _) (by decide)))
        (notMem_keys (keys_paramIfS _ _) (by decide)))
        (notMem_keys (keys_paramIfS _ _) (by decide)))
        (notMem_keys (keys_paramIfS _ _) (by decide)))
        (notMem_keys (keys_paramIfS _ _) (by decide))
  · intro h0
    unfold visitorsParams
    exact notMem_keys_append (notMem_keys_append (notMem_keys_append
      (notMem_keys_append (notMem_keys_append (notMem_keys_append
      (notMem_keys_append (notMem_keys_append (notMem_keys_append
        (by simp [h0, paramIfZ])
        (notMem_keys (keys_paramIfZ _ _) (by decide)))
        (notMem_keys (keys_paramIfOZ _ _) (by decide)))
        (notMem_keys (keys_paramIfS _ _) (by decide)))
        (notMem_keys (keys_paramIfS _ _) (by decide)))
        (notMem_keys (keys_paramIfS _ _) (by decide)))
        (notMem_keys (keys_paramIfS _ _) (by decide)))
        (notMem_keys (keys_paramIfS _ _) (by decide)))
        (notMem_keys (keys_paramIfS _ _) (by decide)))
        (notMem_keys (keys_paramIfS _ _) (by decide))
  · intro h0
    unfold sessionsParams
    exact notMem_keys_append (notMem_keys_append (notMem_keys_append
      (notMem_keys_append (notMem_keys_append (notMem_keys_append
      (notMem_keys_append (notMem_keys_append (notMem_keys_append
      (notMem_keys_append (notMem_keys_append
        (notMem_keys (keys_paramIfZ _ _) (by decide))
        (by simp [h0, paramIfZ]))
        (notMem_keys (keys_paramIfS _ _) (by decide)))
        (notMem_keys (keys_paramIfS _ _) (by decide)))
        (notMem_keys (keys_paramIfS _ _) (by decide)))
        (notMem_keys (keys_paramIfS _ _) (by decide)))
        (notMem_keys (keys_paramIfS _ _) (by decide)))
        (notMem_keys (keys_paramIfDefined _ _) (by decide)))
        (notMem_keys (keys_paramIfDefined _ _) (by decide)))
        (notMem_keys (keys_paramIfDefined _ _) (by decide)))
        (notMem_keys (keys_paramIfDefined _ _) (by decide)))
        (notMem_keys (keys_paramIfS _ _) (by decide))
  · intro h0
    unfold sessionsParams
    exact notMem_keys_append (notMem_keys_append (notMem_keys_append
      (notMem_keys_append (notMem_keys_append (notMem_keys_append
      (notMem_keys_append (notMem_keys_append (notMem_keys_append
      (notMem_keys_append (notMem_keys_append
        (by simp [h0, paramIfZ])
        (notMem_keys (keys_paramIfZ _ _) (by decide)))
        (notMem_keys (keys_paramIfS _ _) (by decide)))
        (notMem_keys (keys_paramIfS _ _) (by decide)))
        (notMem_keys (keys_paramIfS _ _) (by decide)))
        (notMem_keys (keys_paramIfS _ _) (by decide)))
        (notMem_keys (keys_paramIfS _ _) (by decide)))
        (notMem_keys (keys_paramIfDefined _ _) (by decide)))
        (notMem_keys (keys_paramIfDefined _ _) (by decide)))
        (notMem_keys (keys_paramIfDefined _ _) (by decide)))
        (notMem_keys (keys_paramIfDefined _ _) (by decide)))
        (notMem_keys (keys_paramIfS _ _) (by decide))
  · intro hmd
    unfold sessionsParams
    exact List.mem_append_left _ (List.mem_append_left _ (List.mem_append_left _
      (List.mem_append_left _ (List.mem_append_right _ (by rw [hmd]; decide)))))
  · intro hme
    unfold sessionsParams
    exact List.mem_append_left _ (List.mem_append_left _
      (List.mem_append_right _ (by rw [hme]; decide)))

/-- C10 witness: with the defaulted `offset = 0` and `minDuration = 0`,
`get_visitors` sends no `offset` parameter while `get_sessions` does send
`minDuration=0`. -/
theorem c10_witness :
    ("offset" ∉ (visitorsParams
        ⟨20, 0, none, none, none, none, none, none, none, none⟩).map Prod.fst) ∧
    ("minDuration", "0") ∈ sessionsParams
        ⟨20, 5, none, none, none, none, none, some 0, none, none, none, none⟩ :=
  ⟨(c10_numeric_param_truthiness
      ⟨20, 0, none, none, none, none, none, none, none, none⟩
      ⟨20, 5, none, none, none, none, none, some 0, none, none, none, none⟩).1 rfl,
   (c10_numeric_param_truthiness
      ⟨20, 0, none, none, none, none, none, none, none, none⟩
      ⟨20, 5, none, none, none, none, none, some 0, none, none, none, none⟩).2.2.2.2.1 rfl⟩

/-- C3 counterexample: the spread `...options.headers` comes last in the
object literal, so a caller-supplied header with the key `X-API-Key`
REPLACES the configured API key, contradicting the claim that merging
never replaces the authentication header's value. -/
theorem c3_counterexample :
    objGet (apiRequestHeaders "configured-key" [("X-API-Key", "caller-key")])
        "X-API-Key" = some "caller-key" ∧
    objGet (apiRequestHeaders "configured-key" [("X-API-Key", "caller-key")])
        "X-API-Key" ≠ some "configured-key" := by
  constructor
  · decide
  · decide

/-- C3 (amended): the header bag always binds the `X-API-Key` key, and
whenever the caller-supplied headers do not themselves use that key —
which is the case at every call site in this program, all of which pass
no headers at all — its value is the configured API key.  A
caller-supplied entry with the same key, however, wins the merge. -/
theorem c3_auth_header_present (apiKey : String)
    (optHeaders : List (String × String)) :
    (∃ v, objGet (apiRequestHeaders apiKey optHeaders) "X-API-Key" = some v) ∧
    ((∀ p ∈ optHeaders, p.1 ≠ "X-API-Key") →
      objGet (apiRequestHeaders apiKey optHeaders) "X-API-Key" = some apiKey) := by
  have hbase : (([("X-API-Key", apiKey), ("Content-Type", "application/json")] :
      List (String × String)).reverse.find? fun p => p.1 == "X-API-Key")
      = some ("X-API-Key", apiKey) := by
    rw [show (([("X-API-Key", apiKey), ("Content-Type", "application/json")] :
        List (String × String)).reverse)
        = [("Content-Type", "application/json"), ("X-API-Key", apiKey)] from rfl]
    rw [List.find?_cons_of_neg _ (by decide)]
    rw [List.find?_cons_of_pos _ (by simp)]
  constructor
  · unfold objGet apiRequestHeaders
    rw [List.reverse_append, List.find?_append]
    cases hfind : (optHeaders.reverse.find? fun p => p.1 == "X-API-Key") with
    | some x => exact ⟨x.2, by simp [hfind]⟩
    | none => exact ⟨apiKey, by simp [hfind, hbase]⟩
  · intro hno
    unfold objGet apiRequestHeaders
    rw [List.reverse_append, List.find?_append]
    have hnone : (optHeaders.reverse.find? fun p => p.1 == "X-API-Key") = none := by
      rw [List.find?_eq_none]
      intro x hx
      simp only [beq_iff_eq]
      exact hno x (List.mem_reverse.mp hx)
    simp [hnone, hbase]

/-- C3 witness: with caller headers that do not use the `X-API-Key` key,
the bag binds `X-API-Key` to the configured key. -/
theorem c3_witness :
    (∃ v, objGet (apiRequestHeaders "k0" [("Accept", "text/plain")])
        "X-API-Key" = some v) ∧
    objGet (apiRequestHeaders "k0" [("Accept", "text/plain")])
        "X-API-Key" = some "k0" :=
  ⟨(c3_auth_header_present "k0" [("Accept", "text/plain")]).1,
   (c3_auth_header_present "k0" [("Accept", "text/plain")]).2 (by decide)⟩

/-- C6: calling `get_element_context` with both `elementLabel` and
`elementId` absent replies with the error envelope naming the two fields,
and the Remote Data Client is never invoked on that path (the handler
result is a `reply`, not a `fetch`). -/
theorem c6_element_context_requires_identifier (a : ElementArgs)
    (hl : a.elementLabel = none) (hi : a.elementId = none) :
    elementContextHandler a
        = .reply ⟨true, "Either elementLabel or elementId is required"⟩ ∧
    ∀ e, elementContextHandler a ≠ .fetch e := by
  have h : elementContextHandler a
      = .reply ⟨true, "Either elementLabel or elementId is required"⟩ := by
    unfold elementContextHandler
    rw [hl, hi]
    rfl
  exact ⟨h, fun e he => HandlerStep.noConfusion (h ▸ he)⟩

/-- C6 witness: the concrete empty argument bag. -/
theorem c6_witness :
    elementContextHandler ⟨none, none, none⟩
        = .reply ⟨true, "Either elementLabel or elementId is required"⟩ ∧
    ∀ e, elementContextHandler ⟨none, none, none⟩ ≠ .fetch e :=
  c6_element_context_requires_identifier ⟨none, none, none⟩ rfl rfl

/-- C7: a tool-call whose name matches none of the nine catalogued tools
falls through the dispatcher's `if` chain to the envelope
`{isError: true, text: "Unknown tool: <name>"}`. -/
theorem c7_unknown_tool (name : String) (h : name ∉ knownToolNames) :
    routeTool name = .unknown ⟨true, "Unknown tool: " ++ name⟩ := by
  simp only [knownToolNames, List.mem_cons, List.not_mem_nil, or_false,
    not_or] at h
  obtain ⟨h1, h2, h3, h4, h5, h6, h7, h8, h9⟩ := h
  unfold routeTool
  rw [if_neg (by simp [h1]), if_neg (by simp [h2]), if_neg (by simp [h3]),
    if_neg (by simp [h4]), if_neg (by simp [h5]), if_neg (by simp [h6]),
    if_neg (by simp [h7]), if_neg (by simp [h8]), if_neg (by simp [h9])]

/-- C7 witness: the name `does_not_exist`. -/
theorem c7_witness :
    routeTool "does_not_exist"
        = .unknown ⟨true, "Unknown tool: does_not_exist"⟩ := by
  rw [c7_unknown_tool "does_not_exist" (by decide)]
  rfl

/-- C8: a non-2xx remote response makes `apiRequest` throw, and the
dispatcher's outer catch converts the thrown message into an error
envelope whose text contains both the numeric status code and the raw
response body. -/
theorem c8_http_error_envelope (r : HttpResponse) (h : responseOk r = false) :
    ∃ e, apiRequestStatus r = .error e ∧ (catchEnvelope e).isError = true ∧
      Contains (catchEnvelope e).text (toString r.status) ∧
      Contains (catchEnvelope e).text r.body := by
  refine ⟨"API request failed (" ++ toString r.status ++ "): " ++ r.body,
    ?_, rfl, ?_, ?_⟩
  · unfold apiRequestStatus
    rw [h]
    rfl
  · have heq : (catchEnvelope ("API request failed (" ++ toString r.status
        ++ "): " ++ r.body)).text
        = "Error: API request failed (" ++ toString r.status
          ++ ("): " ++ r.body) := by
      apply String.ext
      simp [catchEnvelope]
    exact contains_of_eq_append heq
  · have heq : (catchEnvelope ("API request failed (" ++ toString r.status
        ++ "): " ++ r.body)).text
        = ("Error: API request failed (" ++ toString r.status ++ "): ")
          ++ r.body ++ "" := by
      apply String.ext
      simp [catchEnvelope]
    exact contains_of_eq_append heq

/-- C8 witness: a 404 with body `not found`. -/
theorem c8_witness :
    ∃ e, apiRequestStatus ⟨404, "not found"⟩ = .error e ∧
      (catchEnvelope e).isError = true ∧
      Contains (catchEnvelope e).text (toString (404 : Nat)) ∧
      Contains (catchEnvelope e).text "not found" :=
  c8_http_error_envelope ⟨404, "not found"⟩ (by decide)

theorem mem_data_foldl_append {l : List String} {init : String} {c : Char}
    (h : c ∈ (l.foldl (fun r s => r ++ s) init).data) :
    c ∈ init.data ∨ ∃ s ∈ l, c ∈ s.data := by
  induction l generalizing init with
  | nil => exact Or.inl h
  | cons y ys ih =>
    simp only [List.foldl_cons] at h
    rcases ih h with h' | ⟨s, hs, hc⟩
    · rw [String.data_append] at h'
      rcases List.mem_append.mp h' with h'' | h''
      · exact Or.inl h''
      · exact Or.inr ⟨y, List.mem_cons_self _ _, h''⟩
    · exact Or.inr ⟨s, List.mem_cons_of_mem _ hs, hc⟩

theorem mem_data_join {l : List String} {c : Char}
    (h : c ∈ (String.join l).data) : ∃ s ∈ l, c ∈ s.data := by
  unfold String.join at h
  rcases mem_data_foldl_append h with h' | h'
  · cases h'
  · exact h'

theorem hexDigit_ne_slash (n : Nat) : hexDigit n ≠ '/' := by
  unfold hexDigit
  split <;> decide

theorem encChar_ne_slash (a : Char) : ∀ c ∈ (encChar a).data, c ≠ '/' := by
  intro c hc
  unfold encChar at hc
  by_cases hu : uriUnreserved a
  · rw [if_pos hu] at hc
    have hca : c = a := by simpa using hc
    subst hca
    intro heq
    rw [heq] at hu
    exact absurd hu (by decide)
  · rw [if_neg hu] at hc
    obtain ⟨s, hs, hcs⟩ := mem_data_join hc
    rw [List.mem_map] at hs
    obtain ⟨b, _, hbs⟩ := hs
    subst hbs
    have : c = '%' ∨ c = hexDigit (b / 16) ∨ c = hexDigit (b % 16) := by
      simpa [byteHex] using hcs
    rcases this with h | h | h
    · subst h; decide
    · subst h; exact hexDigit_ne_slash _
    · subst h; exact hexDigit_ne_slash _

/-- C9: the `get_page_context` endpoint percent-encodes the user-supplied
path as a single path segment: the encoded path never contains a literal
`/` (every `/` becomes `%2F`), and `/products/shoes` encodes to
`%2Fproducts%2Fshoes`, so the endpoint starts
`/api/mcp/pages/%2Fproducts%2Fshoes`. -/
theorem c9_page_path_encoding (a : PageContextArgs) :
    (∃ tail, pageContextEndpoint a
        = "/api/mcp/pages/" ++ encodeURIComponent a.path ++ tail) ∧
    (∀ c ∈ (encodeURIComponent a.path).data, c ≠ '/') ∧
    encodeURIComponent "/products/shoes" = "%2Fproducts%2Fshoes" := by
  refine ⟨⟨_, rfl⟩, ?_, by decide⟩
  intro c hc
  unfold encodeURIComponent at hc
  obtain ⟨s, hs, hcs⟩ := mem_data_join hc
  rw [List.mem_map] at hs
  obtain ⟨b, _, hbs⟩ := hs
  subst hbs
  exact encChar_ne_slash b c hcs

/-- C9 witness: the concrete path `/products/shoes`. -/
theorem c9_witness :
    (∃ tail, pageContextEndpoint ⟨"/products/shoes", none, none, "day"⟩
        = "/api/mcp/pages/" ++ encodeURIComponent "/products/shoes" ++ tail) ∧
    '/' ∉ (encodeURIComponent "/products/shoes").data :=
  ⟨(c9_page_path_encoding ⟨"/products/shoes", none, none, "day"⟩).1,
   fun h => (c9_page_path_encoding ⟨"/products/shoes", none, none, "day"⟩).2.1
     '/' h rfl⟩

theorem contains_trans {a b c : String} (hab : Contains a b) (hbc : Contains b c) :
    Contains a c :=
  List.IsInfix.trans hbc hab

theorem head_nonws_append {s : String} (t : String)
    (h : ∃ c r, s.data = c :: r ∧ jsWs c = false) :
    ∃ c r, (s ++ t).data = c :: r ∧ jsWs c = false := by
  obtain ⟨c, r, hc, hw⟩ := h
  exact ⟨c, r ++ t.data, by rw [String.data_append, hc]; rfl, hw⟩

theorem ends_nonws_last {lit : String} (pre : String)
    (h : ∃ r c, lit.data = r ++ [c] ∧ jsWs c = false) :
    ∃ r c, (pre ++ lit).data = r ++ [c] ∧ jsWs c = false := by
  obtain ⟨r, c, hc, hw⟩ := h
  exact ⟨pre.data ++ r, c, by rw [String.data_append, hc, List.append_assoc], hw⟩

theorem hasNonWs_appendL {s t : String} (h : ∃ c ∈ s.data, jsWs c = false) :
    ∃ c ∈ (s ++ t).data, jsWs c = false := by
  obtain ⟨c, hm, hw⟩ := h
  exact ⟨c, by rw [String.data_append]; exact List.mem_append_left _ hm, hw⟩

theorem EndsWith.ofAppend {s a b : String} (h : EndsWith s (a ++ b)) :
    EndsWith s b := by
  unfold EndsWith at *
  rw [String.data_append] at h
  exact (List.suffix_append a.data b.data).trans h

/-- Trimming a string that ends with the full-history retention notice
ends with the notice text, provided the part before the notice has a
non-whitespace character. -/
theorem jsTrim_retention (x : String) (r : Retention)
    (hx : ∃ c ∈ x.data, jsWs c = false) :
    EndsWith (jsTrim (x ++ retentionNotice (some r)))
      ("Data limited to last " ++ jsNumToString r.days
        ++ " days (free plan). Upgrade for full history.*") := by
  have hB : ∃ rr c, (" days (free plan). Upgrade for full history.*" : String).data
      = rr ++ [c] ∧ jsWs c = false := by
    refine ⟨(" days (free plan). Upgrade for full history." : String).data, '*', ?_, by decide⟩
    decide
  have hlast : ∃ rr c, ("---\n*Note: " ++ ("Data limited to last " ++ jsNumToString r.days
      ++ " days (free plan). Upgrade for full history.*")).data = rr ++ [c] ∧ jsWs c = false :=
    ends_nonws_last _ (ends_nonws_last _ hB)
  have heq : x ++ retentionNotice (some r)
      = x ++ ("\n" ++ ("---\n*Note: " ++ ("Data limited to last " ++ jsNumToString r.days
        ++ " days (free plan). Upgrade for full history.*")) ++ "\n") := by
    apply String.ext
    simp [retentionNotice]
  rw [heq]
  exact EndsWith.ofAppend (jsTrim_endsWith x _ hx hlast)

/-- The analogue of `jsTrim_retention` for `formatUserFlows`'s shorter
notice. -/
theorem jsTrim_flowsRetention (x : String) (r : Retention)
    (hx : ∃ c ∈ x.data, jsWs c = false) :
    EndsWith (jsTrim (x ++ flowsRetentionNotice (some r)))
      ("Data limited to last " ++ jsNumToString r.days ++ " days (free plan).*") := by
  have hB : ∃ rr c, (" days (free plan).*" : String).data
      = rr ++ [c] ∧ jsWs c = false := by
    refine ⟨(" days (free plan)." : String).data, '*', ?_, by decide⟩
    decide
  have hlast : ∃ rr c, ("---\n*Note: " ++ ("Data limited to last " ++ jsNumToString r.days
      ++ " days (free plan).*")).data = rr ++ [c] ∧ jsWs c = false :=
    ends_nonws_last _ (ends_nonws_last _ hB)
  have heq : x ++ flowsRetentionNotice (some r)
      = x ++ ("\n" ++ ("---\n*Note: " ++ ("Data limited to last " ++ jsNumToString r.days
        ++ " days (free plan).*")) ++ "\n") := by
    apply String.ext
    simp [flowsRetentionNotice]
  rw [heq]
  exact EndsWith.ofAppend (jsTrim_endsWith x _ hx hlast)

theorem length_insertDesc {α : Type} (key : α → ℚ) (x : α) (l : List α) :
    (insertDesc key x l).length = l.length + 1 := by
  induction l with
  | nil => rfl
  | cons y ys ih =>
    unfold insertDesc
    by_cases h : key x ≥ key y
    · simp [h]
    · simp [h, ih]

theorem length_sortByDesc {α : Type} (key : α → ℚ) (l : List α) :
    (sortByDesc key l).length = l.length := by
  induction l with
  | nil => rfl
  | cons y ys ih =>
    unfold sortByDesc at *
    simp [List.foldr_cons, length_insertDesc, ih]

theorem length_rankElements (elements : List PageElement) :
    (rankElements elements).length = elements.length := by
  unfold rankElements
  rw [length_sortByDesc, List.length_map]

/-- C1 counterexample payload: `get_user_flows` with an empty flows list
and `_dataRetention: {days: 30}`. -/
def c1cexPayload : ToolPayload :=
  .userFlows ⟨some [], some 3, none, none, some ⟨30⟩⟩

set_option maxRecDepth 8192 in
/-- C1 counterexample: the claim says the notice appears "regardless of
whether the main result list is empty", but `formatUserFlows` returns
early on an empty flows list WITHOUT the notice: with
`_dataRetention: {days: 30}` present, the report does not mention `30`
anywhere, so it does not end with a notice mentioning 30 days. -/
theorem c1_counterexample :
    retentionOf c1cexPayload = some ⟨30⟩ ∧
    ¬ Contains (formatted c1cexPayload) "30" := by
  constructor
  · rfl
  · decide

/-- C1 (amended): whenever a tool's response carries
`_dataRetention = {days}`, the formatted report ends with a trailing
notice mentioning that number of days — for every tool, and regardless of
emptiness for all other result lists — EXCEPT on the three early-return
paths (absent/empty flows list, empty pages list, empty elements list),
which return before the notice is appended. -/
theorem c1_retention_notice_amended (p : ToolPayload) (r : Retention)
    (hr : retentionOf p = some r) (hs : ¬ noticeSkipped p) :
    EndsWith (formatted p) ("Data limited to last " ++ jsNumToString r.days
      ++ " days (free plan). Upgrade for full history.*")
    ∨ EndsWith (formatted p) ("Data limited to last " ++ jsNumToString r.days
      ++ " days (free plan).*") := by
  cases p with
  | pageContext d =>
    left
    simp only [retentionOf] at hr
    show EndsWith (formatPageContext d) _
    unfold formatPageContext
    rw [hr]
    exact jsTrim_retention _ r (by
      repeat apply hasNonWs_appendL
      exact ⟨'#', by decide, by decide⟩)
  | listPages d =>
    left
    simp only [retentionOf] at hr
    simp only [noticeSkipped] at hs
    show EndsWith (formatListPages d) _
    unfold formatListPages
    rw [if_neg (fun h => hs (List.length_eq_zero.mp h)), hr]
    exact jsTrim_retention _ r (by
      repeat apply hasNonWs_appendL
      exact ⟨'#', by decide, by decide⟩)
  | elements d =>
    left
    simp only [retentionOf] at hr
    simp only [noticeSkipped] at hs
    show EndsWith (formatElementsFound d) _
    unfold formatElementsFound
    rw [if_neg (fun h => hs (List.length_eq_zero.mp h)), hr]
    exact jsTrim_retention _ r (by
      repeat apply hasNonWs_appendL
      exact ⟨'#', by decide, by decide⟩)
  | appContext d =>
    left
    simp only [retentionOf] at hr
    show EndsWith (formatAppContext d) _
    unfold formatAppContext
    rw [hr]
    exact jsTrim_retention _ r (by
      repeat apply hasNonWs_appendL
      exact ⟨'#', by decide, by decide⟩)
  | visitors d =>
    left
    simp only [retentionOf] at hr
    show EndsWith (formatVisitors d) _
    unfold formatVisitors
    rw [hr]
    by_cases hv : d.visitors.length = 0
    · rw [if_pos hv]
      exact jsTrim_retention _ r (by
        apply hasNonWs_appendL
        unfold visitorsHead
        repeat apply hasNonWs_appendL
        exact ⟨'#', by decide, by decide⟩)
    · rw [if_neg hv]
      exact jsTrim_retention _ r (by
        apply hasNonWs_appendL
        unfold visitorsHead
        repeat apply hasNonWs_appendL
        exact ⟨'#', by decide, by decide⟩)
  | visitorDetail d =>
    left
    simp only [retentionOf] at hr
    show EndsWith (formatVisitorDetail d) _
    unfold formatVisitorDetail
    rw [hr]
    exact jsTrim_retention _ r (by
      apply hasNonWs_appendL
      unfold visitorProfilePart
      repeat apply hasNonWs_appendL
      exact ⟨'#', by decide, by decide⟩)
  | sessions d =>
    left
    simp only [retentionOf] at hr
    show EndsWith (formatSessions d) _
    unfold formatSessions
    rw [hr]
    by_cases hv : d.sessions.length = 0
    · rw [if_pos hv]
      exact jsTrim_retention _ r (by
        apply hasNonWs_appendL
        unfold sessionsHead
        repeat apply hasNonWs_appendL
        exact ⟨'#', by decide, by decide⟩)
    · rw [if_neg hv]
      exact jsTrim_retention _ r (by
        apply hasNonWs_appendL
        unfold sessionsHead
        repeat apply hasNonWs_appendL
        exact ⟨'#', by decide, by decide⟩)
  | sessionDetail d =>
    left
    simp only [retentionOf] at hr
    show EndsWith (formatSessionDetail d) _
    unfold formatSessionDetail
    rw [hr]
    exact jsTrim_retention _ r (by
      repeat apply hasNonWs_appendL
      exact ⟨'#', by decide, by decide⟩)
  | userFlows d =>
    right
    simp only [retentionOf] at hr
    simp only [noticeSkipped, not_or] at hs
    obtain ⟨hs1, hs2⟩ := hs
    show EndsWith (formatUserFlows d) _
    cases hfl : d.flows with
    | none => exact absurd hfl hs1
    | some l =>
      cases l with
      | nil => exact absurd hfl hs2
      | cons f fs =>
        unfold formatUserFlows
        rw [hfl, hr]
        exact jsTrim_flowsRetention _ r (by
          apply hasNonWs_appendL
          unfold flowsHead
          repeat apply hasNonWs_appendL
          exact ⟨'#', by decide, by decide⟩)

/-- C1 witness: a `get_visitors` payload with an EMPTY visitor list and
`_dataRetention: {days: 30}` still ends with the notice. -/
theorem c1_witness :
    EndsWith (formatted (.visitors ⟨[], some 0, some 20, some 0, some ⟨30⟩⟩))
      ("Data limited to last " ++ jsNumToString (30 : ℚ)
        ++ " days (free plan). Upgrade for full history.*")
    ∨ EndsWith (formatted (.visitors ⟨[], some 0, some 20, some 0, some ⟨30⟩⟩))
      ("Data limited to last " ++ jsNumToString (30 : ℚ)
        ++ " days (free plan).*") :=
  c1_retention_notice_amended (.visitors ⟨[], some 0, some 20, some 0, some ⟨30⟩⟩)
    ⟨30⟩ rfl (by simp [noticeSkipped])

/-- C2 counterexample payload: an app-context response with six
`topPages` entries and nothing else. -/
def c2cexData : AppData :=
  ⟨[], some [⟨"/p1", 1⟩, ⟨"/p2", 2⟩, ⟨"/p3", 3⟩, ⟨"/p4", 4⟩, ⟨"/p5", 5⟩, ⟨"/p6", 6⟩],
    none, none, none, none, none, none, none, none, none⟩

set_option maxRecDepth 8192 in
/-- C2 counterexample: with six `topPages` entries (cap 5), the Top Pages
section renders the first five and silently drops the sixth — no
`...and N more` marker appears anywhere in the report, contradicting the
claim that every capped section appends one. -/
theorem c2_counterexample :
    Contains (formatAppContext c2cexData) "- /p5: 5 views" ∧
    ¬ Contains (formatAppContext c2cexData) "/p6" ∧
    ¬ Contains (formatAppContext c2cexData) "more" := by
  refine ⟨by decide, by decide, by decide⟩

/-- C2 (amended): only two sections emit the `...and N more` truncation
marker — the elements-per-page section (cap 20) and the per-element
period rows (cap 7) of the page-context report, each with
N = total − cap.  The other capped sections (the top-5 lists, the 7-row
daily breakdowns, the capped insight lists) silently render at most the
cap, and the device breakdown has no cap at all. -/
theorem c2_truncation_markers (d : PageData) :
    (d.elements.length > 20 →
      Contains (formatPageContext d)
        ("*...and " ++ jsNumToString ((d.elements.length : ℚ) - 20)
          ++ " more elements*")) ∧
    (∀ r ∈ (rankElements d.elements).take 20, r.el.stats.length > 7 →
      Contains (formatPageContext d)
        ("*...and " ++ jsNumToString ((r.el.stats.length : ℚ) - 7)
          ++ " more periods*")) := by
  constructor
  · intro h20
    have hne : ¬ d.elements.length = 0 := by omega
    have hlen : (rankElements d.elements).length = d.elements.length :=
      length_rankElements d.elements
    have h20' : (rankElements d.elements).length > 20 := by omega
    have hm : Contains (elementsSection d.elements)
        ("*...and " ++ jsNumToString ((d.elements.length : ℚ) - 20)
          ++ " more elements*") := by
      unfold elementsSection
      rw [if_neg hne, if_pos h20', hlen]
      apply Contains.appendL
      apply Contains.appendL
      have heq : "\n*...and " ++ jsNumToString ((d.elements.length : ℚ) - 20)
            ++ " more elements*\n"
          = "\n" ++ ("*...and " ++ jsNumToString ((d.elements.length : ℚ) - 20)
            ++ " more elements*") ++ "\n" := by
        apply String.ext
        simp only [String.data_append, List.append_assoc]
        rfl
      exact contains_of_eq_append heq
    show Contains (formatPageContext d) _
    unfold formatPageContext
    exact jsTrim_contains (Contains.appendR _ (Contains.appendL _ hm))
      (head_nonws_append _ (head_nonws_append _
        ⟨'*', ("...and " : String).data, by decide, by decide⟩))
      (ends_nonws_last _
        ⟨(" more elements" : String).data, '*', by decide, by decide⟩)
  · intro r hr hst
    have hmr : Contains (renderElement r)
        ("*...and " ++ jsNumToString ((r.el.stats.length : ℚ) - 7)
          ++ " more periods*") := by
      unfold renderElement
      rw [if_pos hst]
      apply Contains.appendL
      have heq : "  - *...and " ++ jsNumToString ((r.el.stats.length : ℚ) - 7)
            ++ " more periods*\n"
          = "  - " ++ ("*...and " ++ jsNumToString ((r.el.stats.length : ℚ) - 7)
            ++ " more periods*") ++ "\n" := by
        apply String.ext
        simp only [String.data_append, List.append_assoc]
        rfl
      exact contains_of_eq_append heq
    have hfold : Contains (((rankElements d.elements).take 20).foldl
        (fun acc x => acc ++ renderElement x) "") (renderElement r) :=
      foldl_append_contains renderElement _ "" r hr
    have hsec : Contains (elementsSection d.elements)
        ("*...and " ++ jsNumToString ((r.el.stats.length : ℚ) - 7)
          ++ " more periods*") := by
      have hne : ¬ d.elements.length = 0 := by
        intro h0
        rw [List.length_eq_zero.mp h0] at hr
        simp [rankElements, sortByDesc] at hr
      unfold elementsSection
      rw [if_neg hne]
      exact Contains.appendL _ (Contains.appendR _ (contains_trans hfold hmr))
    show Contains (formatPageContext d) _
    unfold formatPageContext
    exact jsTrim_contains (Contains.appendR _ (Contains.appendL _ hsec))
      (head_nonws_append _ (head_nonws_append _
        ⟨'*', ("...and " : String).data, by decide, by decide⟩))
      (ends_nonws_last _
        ⟨(" more periods" : String).data, '*', by decide, by decide⟩)

/-- C2 witness payloads: 21 identical elements (for the 20-cap marker)
and one element with 8 per-period stats (for the 7-cap marker). -/
def c2elem : PageElement :=
  ⟨none, some "Buy", none, none, some "BUTTON", some "cta", none, []⟩

def c2stat : ElemStat := ⟨none, some 1, some 1⟩

def c2elem8 : PageElement :=
  ⟨none, some "Buy", none, none, none, none, none, List.replicate 8 c2stat⟩

def c2pdata1 : PageData :=
  ⟨⟨"/p", none, none, none⟩, [], List.replicate 21 c2elem, none⟩

def c2pdata2 : PageData := ⟨⟨"/p", none, none, none⟩, [], [c2elem8], none⟩

set_option maxRecDepth 8192 in
/-- C2 witness: the two marker sections at concrete inputs. -/
theorem c2_witness :
    Contains (formatPageContext c2pdata1)
      ("*...and " ++ jsNumToString ((21 : ℚ) - 20) ++ " more elements*") ∧
    Contains (formatPageContext c2pdata2)
      ("*...and " ++ jsNumToString ((8 : ℚ) - 7) ++ " more periods*") :=
  ⟨(c2_truncation_markers c2pdata1).1 (by decide),
   (c2_truncation_markers c2pdata2).2 ⟨c2elem8, 8, 8⟩
     (by with_unfolding_all decide) (by decide)⟩

/-- C4 payload: one flow whose `avgDuration`, `avgPageCount` and
`description` are all absent. -/
def c4flow : Flow :=
  ⟨some "Checkout", none, some ["/a", "/b"], some 10, some 5, none, none,
    some 1, some 0, some 0, none, none, none⟩

def c4data : FlowsData := ⟨some [c4flow], some 1, none, none, none⟩

set_option maxRecDepth 8192 in
/-- C4 counterexample: a flow without `description` renders the literal
text `undefined` (the JS interpolation of the absent field), which is
neither the documented `N/A`/`?`/`0` fallback (no `N/A` appears anywhere
in the report) nor an omitted line. -/
theorem c4_counterexample :
    Contains (formatUserFlows c4data) "undefined" ∧
    ¬ Contains (formatUserFlows c4data) "N/A" := by
  constructor
  · with_unfolding_all decide
  · with_unfolding_all decide

/-- C4 (amended): formatting never raises on absent optional fields, and
guarded fields do render their fallbacks — e.g. absent
`avgDuration`/`avgPageCount` render `0` — but optional fields
interpolated without a guard (here `flow.description`) render the literal
text `undefined` instead of a documented fallback or an omitted line. -/
theorem c4_missing_field_rendering (d : FlowsData) (f : Flow)
    (hf : f ∈ d.flows.getD []) :
    (f.avgDuration = none → f.avgPageCount = none →
      Contains (formatUserFlows d) "- **Avg Duration:** 0s | **Avg Pages:** 0")
    ∧ (f.description = none → Contains (formatUserFlows d) "undefined") := by
  cases hfl : d.flows with
  | none =>
    rw [hfl] at hf
    simp at hf
  | some l =>
    rw [hfl, Option.getD_some] at hf
    cases l with
    | nil => simp at hf
    | cons g gs =>
      have hfold : Contains ((g :: gs).foldl (fun acc x => acc ++ renderFlow x) "")
          (renderFlow f) :=
        foldl_append_contains renderFlow _ "" f hf
      constructor
      · intro hd hp
        have hmr : Contains (renderFlow f)
            "- **Avg Duration:** 0s | **Avg Pages:** 0" := by
          unfold renderFlow
          rw [hd, hp]
          refine Contains.appendR _ (Contains.appendR _ (Contains.appendR _
            (Contains.appendR _ (Contains.appendR _ (Contains.appendR _
            (Contains.appendL _ ?_))))))
          have heq : ("- **Avg Duration:** " ++ jsNumToString (orZero none)
              ++ "s | **Avg Pages:** " ++ jsNumToString (orZero none) ++ "\n")
              = "" ++ "- **Avg Duration:** 0s | **Avg Pages:** 0" ++ "\n" := by
            decide
          exact contains_of_eq_append heq
        show Contains (formatUserFlows d) _
        unfold formatUserFlows
        rw [hfl]
        exact jsTrim_contains
          (Contains.appendR _ (Contains.appendL _ (contains_trans hfold hmr)))
          ⟨'-', (" **Avg Duration:** 0s | **Avg Pages:** 0" : String).data,
            by decide, by decide⟩
          ⟨("- **Avg Duration:** 0s | **Avg Pages:** " : String).data, '0',
            by decide, by decide⟩
      · intro hdesc
        have hmr : Contains (renderFlow f) "undefined" := by
          unfold renderFlow
          rw [hdesc]
          refine Contains.appendR _ (Contains.appendR _ (Contains.appendL _ ?_))
          have heq : (jsStr none ++ "\n") = "" ++ "undefined" ++ "\n" := by decide
          exact contains_of_eq_append heq
        show Contains (formatUserFlows d) _
        unfold formatUserFlows
        rw [hfl]
        exact jsTrim_contains
          (Contains.appendR _ (Contains.appendL _ (contains_trans hfold hmr)))
          ⟨'u', ("ndefined" : String).data, by decide, by decide⟩
          ⟨("undefine" : String).data, 'd', by decide, by decide⟩

/-- C4 witness: the concrete sparse flow. -/
theorem c4_witness :
    Contains (formatUserFlows c4data) "- **Avg Duration:** 0s | **Avg Pages:** 0" ∧
    Contains (formatUserFlows c4data) "undefined" :=
  ⟨(c4_missing_field_rendering c4data c4flow (by decide)).1 rfl rfl,
   (c4_missing_field_rendering c4data c4flow (by decide)).2 rfl⟩

/-- C5: the derived rates of `formatPageContext` (entry/exit rate over
total views) and `formatAppContext` (bounce rate over total sessions)
render `100 * numerator / denominator` to one decimal place when the
denominator is positive, and render the literal `0` (followed by `%`)
when the denominator is zero — in particular when numerator and
denominator are both zero. -/
theorem c5_rate_rendering (dp : PageData) (da : AppData) :
    (dp.stats.length ≠ 0 → (pageTotals dp.stats).views = 0 →
      Contains (formatPageContext dp) "- Entry Rate: 0%" ∧
      Contains (formatPageContext dp) "- Exit Rate: 0%")
    ∧ (dp.stats.length ≠ 0 → 0 < (pageTotals dp.stats).views →
      Contains (formatPageContext dp)
        ("- Entry Rate: " ++ jsToFixed 1 (100 * (pageTotals dp.stats).entries
          / (pageTotals dp.stats).views) ++ "%") ∧
      Contains (formatPageContext dp)
        ("- Exit Rate: " ++ jsToFixed 1 (100 * (pageTotals dp.stats).exits
          / (pageTotals dp.stats).views) ++ "%"))
    ∧ (da.stats.length ≠ 0 → (appTotals da.stats).sessions = 0 →
      Contains (formatAppContext da) "- **Bounce Rate:** 0%")
    ∧ (da.stats.length ≠ 0 → 0 < (appTotals da.stats).sessions →
      Contains (formatAppContext da)
        ("- **Bounce Rate:** " ++ jsToFixed 1 (100 * (appTotals da.stats).bounces
          / (appTotals da.stats).sessions) ++ "%")) := by
  refine ⟨?_, ?_, ?_, ?_⟩
  · intro hne h0
    have hcond : ¬ (0 < (pageTotals dp.stats).views) := by
      rw [h0]
      exact lt_irrefl 0
    constructor
    · have hsec : Contains (pageStatsSection dp.stats) "- Entry Rate: 0%" := by
        unfold pageStatsSection
        rw [if_neg hne]
        simp only [if_neg hcond]
        refine Contains.appendR _ (Contains.appendR _ (Contains.appendR _
          (Contains.appendR _ (Contains.appendR _ (Contains.appendR _
          (Contains.appendL _ ?_))))))
        have heq : ("- Entry Rate: " ++ "0" ++ "%\n")
            = "" ++ "- Entry Rate: 0%" ++ "\n" := by decide
        exact contains_of_eq_append heq
      show Contains (formatPageContext dp) _
      unfold formatPageContext
      exact jsTrim_contains
        (Contains.appendR _ (Contains.appendR _ (Contains.appendL _ hsec)))
        ⟨'-', (" Entry Rate: 0%" : String).data, by decide, by decide⟩
        ⟨("- Entry Rate: 0" : String).data, '%', by decide, by decide⟩
    · have hsec : Contains (pageStatsSection dp.stats) "- Exit Rate: 0%" := by
        unfold pageStatsSection
        rw [if_neg hne]
        simp only [if_neg hcond]
        refine Contains.appendR _ (Contains.appendR _ (Contains.appendR _
          (Contains.appendR _ (Contains.appendR _ (Contains.appendL _ ?_)))))
        have heq : ("- Exit Rate: " ++ "0" ++ "%\n")
            = "" ++ "- Exit Rate: 0%" ++ "\n" := by decide
        exact contains_of_eq_append heq
      show Contains (formatPageContext dp) _
      unfold formatPageContext
      exact jsTrim_contains
        (Contains.appendR _ (Contains.appendR _ (Contains.appendL _ hsec)))
        ⟨'-', (" Exit Rate: 0%" : String).data, by decide, by decide⟩
        ⟨("- Exit Rate: 0" : String).data, '%', by decide, by decide⟩
  · intro hne hpos
    constructor
    · have harith : ((pageTotals dp.stats).entries / (pageTotals dp.stats).views) * 100
          = 100 * (pageTotals dp.stats).entries / (pageTotals dp.stats).views := by
        rw [div_mul_eq_mul_div, mul_comm]
      have hsec : Contains (pageStatsSection dp.stats)
          ("- Entry Rate: " ++ jsToFixed 1 (100 * (pageTotals dp.stats).entries
            / (pageTotals dp.stats).views) ++ "%") := by
        unfold pageStatsSection
        rw [if_neg hne]
        simp only [if_pos hpos]
        rw [harith]
        refine Contains.appendR _ (Contains.appendR _ (Contains.appendR _
          (Contains.appendR _ (Contains.appendR _ (Contains.appendR _
          (Contains.appendL _ ?_))))))
        have heq : ("- Entry Rate: " ++ jsToFixed 1 (100 * (pageTotals dp.stats).entries
              / (pageTotals dp.stats).views) ++ "%\n")
            = "" ++ ("- Entry Rate: " ++ jsToFixed 1 (100 * (pageTotals dp.stats).entries
              / (pageTotals dp.stats).views) ++ "%") ++ "\n" := by
          apply String.ext
          simp only [String.data_append, List.append_assoc]
          rfl
        exact contains_of_eq_append heq
      show Contains (formatPageContext dp) _
      unfold formatPageContext
      exact jsTrim_contains
        (Contains.appendR _ (Contains.appendR _ (Contains.appendL _ hsec)))
        (head_nonws_append _ (head_nonws_append _
          ⟨'-', (" Entry Rate: " : String).data, by decide, by decide⟩))
        (ends_nonws_last _ ⟨[], '%', by decide, by decide⟩)
    · have harith : ((pageTotals dp.stats).exits / (pageTotals dp.stats).views) * 100
          = 100 * (pageTotals dp.stats).exits / (pageTotals dp.stats).views := by
        rw [div_mul_eq_mul_div, mul_comm]
      have hsec : Contains (pageStatsSection dp.stats)
          ("- Exit Rate: " ++ jsToFixed 1 (100 * (pageTotals dp.stats).exits
            / (pageTotals dp.stats).views) ++ "%") := by
        unfold pageStatsSection
        rw [if_neg hne]
        simp only [if_pos hpos]
        rw [harith]
        refine Contains.appendR _ (Contains.appendR _ (Contains.appendR _
          (Contains.appendR _ (Contains.appendR _ (Contains.appendL _ ?_)))))
        have heq : ("- Exit Rate: " ++ jsToFixed 1 (100 * (pageTotals dp.stats).exits
              / (pageTotals dp.stats).views) ++ "%\n")
            = "" ++ ("- Exit Rate: " ++ jsToFixed 1 (100 * (pageTotals dp.stats).exits
              / (pageTotals dp.stats).views) ++ "%") ++ "\n" := by
          apply String.ext
          simp only [String.data_append, List.append_assoc]
          rfl
        exact contains_of_eq_append heq
      show Contains (formatPageContext dp) _
      unfold formatPageContext
      exact jsTrim_contains
        (Contains.appendR _ (Contains.appendR _ (Contains.appendL _ hsec)))
        (head_nonws_append _ (head_nonws_append _
          ⟨'-', (" Exit Rate: " : String).data, by decide, by decide⟩))
        (ends_nonws_last _ ⟨[], '%', by decide, by decide⟩)
  · intro hne h0
    have hcond : ¬ (0 < (appTotals da.stats).sessions) := by
      rw [h0]
      exact lt_irrefl 0
    have hb : appBounceRateStr da.stats = "0" := by
      unfold appBounceRateStr
      rw [if_neg hcond]
    have hsec : Contains (appStatsSection da.stats) "- **Bounce Rate:** 0%" := by
      unfold appStatsSection
      rw [if_neg hne, hb]
      refine Contains.appendR _ (Contains.appendR _ (Contains.appendR _
        (Contains.appendR _ (Contains.appendR _ (Contains.appendL _ ?_)))))
      have heq : ("- **Bounce Rate:** " ++ "0" ++ "%\n")
          = "" ++ "- **Bounce Rate:** 0%" ++ "\n" := by decide
      exact contains_of_eq_append heq
    show Contains (formatAppContext da) _
    unfold formatAppContext
    exact jsTrim_contains
      (Contains.appendR _ (Contains.appendR _ (Contains.appendR _
        (Contains.appendR _ (Contains.appendR _ (Contains.appendR _
        (Contains.appendR _ (Contains.appendR _ (Contains.appendR _
        (Contains.appendR _ (Contains.appendR _ (Contains.appendL _ hsec))))))))))))
      ⟨'-', (" **Bounce Rate:** 0%" : String).data, by decide, by decide⟩
      ⟨("- **Bounce Rate:** 0" : String).data, '%', by decide, by decide⟩
  · intro hne hpos
    have harith : ((appTotals da.stats).bounces / (appTotals da.stats).sessions) * 100
        = 100 * (appTotals da.stats).bounces / (appTotals da.stats).sessions := by
      rw [div_mul_eq_mul_div, mul_comm]
    have hb : appBounceRateStr da.stats
        = jsToFixed 1 (100 * (appTotals da.stats).bounces
          / (appTotals da.stats).sessions) := by
      unfold appBounceRateStr
      rw [if_pos hpos, harith]
    have hsec : Contains (appStatsSection da.stats)
        ("- **Bounce Rate:** " ++ jsToFixed 1 (100 * (appTotals da.stats).bounces
          / (appTotals da.stats).sessions) ++ "%") := by
      unfold appStatsSection
      rw [if_neg hne, hb]
      refine Contains.appendR _ (Contains.appendR _ (Contains.appendR _
        (Contains.appendR _ (Contains.appendR _ (Contains.appendL _ ?_)))))
      have heq : ("- **Bounce Rate:** " ++ jsToFixed 1 (100 * (appTotals da.stats).bounces
            / (appTotals da.stats).sessions) ++ "%\n")
          = "" ++ ("- **Bounce Rate:** " ++ jsToFixed 1 (100 * (appTotals da.stats).bounces
            / (appTotals da.stats).sessions) ++ "%") ++ "\n" := by
        apply String.ext
        simp only [String.data_append, List.append_assoc]
        rfl
      exact contains_of_eq_append heq
    show Contains (formatAppContext da) _
    unfold formatAppContext
    exact jsTrim_contains
      (Contains.appendR _ (Contains.appendR _ (Contains.appendR _
        (Contains.appendR _ (Contains.appendR _ (Contains.appendR _
        (Contains.appendR _ (Contains.appendR _ (Contains.appendR _
        (Contains.appendR _ (Contains.appendR _ (Contains.appendL _ hsec))))))))))))
      (head_nonws_append _ (head_nonws_append _
        ⟨'-', (" **Bounce Rate:** " : String).data, by decide, by decide⟩))
      (ends_nonws_last _ ⟨[], '%', by decide, by decide⟩)

/-- C5 witness payloads. -/
def c5pstat0 : PageStat :=
  ⟨none, none, some 0, none, none, none, none, none, none, none, none, none,
    none, none, none, none, none⟩

def c5pstatPos : PageStat :=
  ⟨none, none, some 10, none, none, some 5, some 2, none, none, none, none,
    none, none, none, none, none, none⟩

def c5pdata0 : PageData := ⟨⟨"/p", none, none, none⟩, [c5pstat0], [], none⟩

def c5pdataPos : PageData := ⟨⟨"/p", none, none, none⟩, [c5pstatPos], [], none⟩

def c5astat0 : AppStat :=
  ⟨none, none, some 0, none, none, none, none, none, none, none, none, none,
    none, none, none, none, none, none, none, none, none⟩

def c5astatPos : AppStat :=
  ⟨none, none, some 10, none, none, none, none, none, some 3, none, none,
    none, none, none, none, none, none, none, none, none, none⟩

def c5adata0 : AppData :=
  ⟨[c5astat0], none, none, none, none, none, none, none, none, none, none⟩

def c5adataPos : AppData :=
  ⟨[c5astatPos], none, none, none, none, none, none, none, none, none, none⟩

/-- C5 witness: both the zero-denominator and the positive-denominator
cases at concrete inputs (views 0; views 10 with 5 entries and 2 exits;
sessions 0; sessions 10 with 3 bounces). -/
theorem c5_witness :
    (Contains (formatPageContext c5pdata0) "- Entry Rate: 0%" ∧
     Contains (formatPageContext c5pdata0) "- Exit Rate: 0%") ∧
    (Contains (formatPageContext c5pdataPos)
        ("- Entry Rate: " ++ jsToFixed 1 (100 * (pageTotals c5pdataPos.stats).entries
          / (pageTotals c5pdataPos.stats).views) ++ "%") ∧
     Contains (formatPageContext c5pdataPos)
        ("- Exit Rate: " ++ jsToFixed 1 (100 * (pageTotals c5pdataPos.stats).exits
          / (pageTotals c5pdataPos.stats).views) ++ "%")) ∧
    Contains (formatAppContext c5adata0) "- **Bounce Rate:** 0%" ∧
    Contains (formatAppContext c5adataPos)
      ("- **Bounce Rate:** " ++ jsToFixed 1 (100 * (appTotals c5adataPos.stats).bounces
        / (appTotals c5adataPos.stats).sessions) ++ "%") :=
  ⟨(c5_rate_rendering c5pdata0 c5adata0).1 (by decide)
      (by with_unfolding_all decide),
   (c5_rate_rendering c5pdataPos c5adataPos).2.1 (by decide)
      (by with_unfolding_all decide),
   (c5_rate_rendering c5pdata0 c5adata0).2.2.1 (by decide)
      (by with_unfolding_all decide),
   (c5_rate_rendering c5pdataPos c5adataPos).2.2.2 (by decide)
      (by with_unfolding_all decide)⟩

end Lcontext
